import Mathlib

/-!
# TeleICU middleware: observation ingestion, windowed store and upstream sync

A shallow embedding of `src/controller/ObservationController.js`.

Modelling conventions

* Instants (`new Date()`) are integers: milliseconds since the Unix epoch.
  Every clock reading is an explicit argument of the operation that takes it.
* A numeric JSON field is `JsNum`: absent (`undefined`), `null`, or a finite
  number.  Only comparisons are ever applied to these numbers, so the rationals
  stand for the finite doubles.
* A JavaScript object used as a dictionary is an association list over its own
  string keys, in insertion order; the names it inherits from `Object.prototype`
  are `inheritedKeys`.  The reordering of integer-like keys is outside the model.
* The request body is a primitive, or an arbitrarily nested array whose
  non-array elements are observation objects.
* External collaborators (device directory, clinical sink, `dayjs`, the socket
  transport) are oracles whose answers, including thrown exceptions, are
  arguments of the model.  `generateHeaders` is neither defined nor imported in
  the controller: evaluating the identifier throws a `ReferenceError`.
* Console output is left out, except the logging of caught errors.
-/

namespace TeleICU

/-! ## Data model -/

/-- Milliseconds since the Unix epoch, the numeric value of a `Date`. -/
abbrev Time := Int

/-- The value of a numeric JSON field: absent, `null`, or a finite number. -/
inductive JsNum where
  | undefined
  | null
  | num (q : Rat)
  deriving DecidableEq

/-- One reading pushed by a monitor.  `device_id = none` stands for a missing
(`undefined`) identifier; `observation_id` is the property key the reading is
stored under; `systolic` and `diastolic` hold `systolic?.value` and
`diastolic?.value`. -/
structure Observation where
  device_id : Option String
  observation_id : String
  date_time : Option String
  status : Option String
  value : JsNum
  low_limit : JsNum
  high_limit : JsNum
  systolic : JsNum
  diastolic : JsNum
  deriving DecidableEq

/-- One element of `staticObservations`. -/
structure DeviceBuffer where
  device_id : Option String
  observations : List (String × List Observation)
  last_updated : Time
  deriving DecidableEq

/-- The module variables `staticObservations` and `activeDevices`. -/
structure Store where
  staticObservations : List DeviceBuffer
  activeDevices : List (Option String)
  deriving DecidableEq

/-- Both module variables start as `[]`. -/
def Store.empty : Store := ⟨[], []⟩

/-- The constant `DEFAULT_LISTING_LIMIT`. -/
def DEFAULT_LISTING_LIMIT : Nat := 10

/-! ## Dictionary and array primitives -/

/-- Property read `obj[key]` on a dictionary; `none` is `undefined`. -/
def getKey {κ β : Type} [DecidableEq κ] (key : κ) : List (κ × β) → Option β
  | [] => none
  | (k, v) :: rest => if k = key then some v else getKey key rest

/-- The object literal `{...obj, [key]: v}`: an existing key keeps its place
and takes the new value, a new key goes last. -/
def setKey {κ β : Type} [DecidableEq κ] (key : κ) (v : β) : List (κ × β) → List (κ × β)
  | [] => [(key, v)]
  | (k, w) :: rest => if k = key then (k, v) :: rest else (k, w) :: setKey key v rest

/-- The method `Array.prototype.slice(start)` with one argument: a negative `start` counts
from the end, and the start index is clamped to `[0, length]`. -/
def jsSlice {β : Type} (start : Int) (xs : List β) : List β :=
  let n : Int := xs.length
  let k : Int := if start < 0 then max (n + start) 0 else min start n
  xs.drop k.toNat

/-! ## Exceptions -/

/-- A thrown JavaScript exception. -/
inductive JsError where
  | badRequest (message : String)
  | typeError (message : String)
  | rangeError (message : String)
  | referenceError (message : String)
  | thrown (message : String)
  deriving DecidableEq

/-! ## Windowed store -/

/-- The property names every object literal inherits from `Object.prototype`.
Read on a dictionary that has no own key of that name, such a name gives the
inherited member, which is neither `undefined` nor an array. -/
def inheritedKeys : List String :=
  ["constructor", "__proto__", "hasOwnProperty", "isPrototypeOf", "propertyIsEnumerable",
    "toLocaleString", "toString", "valueOf", "__defineGetter__", "__defineSetter__",
    "__lookupGetter__", "__lookupSetter__"]

/-- The object the callback of `staticObservations.map` returns for an item of
the observation's device, `slicedObservations` being what line 43 computed. -/
def appended (now : Time) (observation : Observation) (item : DeviceBuffer)
    (slicedObservations : List Observation) : DeviceBuffer :=
  { item with
    observations :=
      setKey observation.observation_id (slicedObservations ++ [observation]) item.observations
    last_updated := now }

/-- The callback of `staticObservations.map` in `addObservation`.  In
`item.observations[observation.observation_id]?.slice(-DEFAULT_LISTING_LIMIT) || []`
an own key holds an array, which is sliced; a name that is not a key at all
reads as `undefined`, which gives `[]`; an inherited name reads as a member of
`Object.prototype`, which has no `slice`, and the call throws a `TypeError`. -/
def updateItem (now : Time) (observation : Observation) (item : DeviceBuffer) :
    Except JsError DeviceBuffer :=
  if item.device_id = observation.device_id then
    match getKey observation.observation_id item.observations with
    | some w => .ok (appended now observation item (jsSlice (-(DEFAULT_LISTING_LIMIT : Int)) w))
    | none =>
      if observation.observation_id ∈ inheritedKeys then
        .error (.typeError "item.observations[observation.observation_id]?.slice is not a function")
      else .ok (appended now observation item [])
  else .ok item

/-- The call `staticObservations.map(callback)`: the array of the results, or
the exception of the first callback that throws. -/
def updateItems (now : Time) (observation : Observation) :
    List DeviceBuffer → Except JsError (List DeviceBuffer)
  | [] => .ok []
  | item :: rest =>
    match updateItem now observation item with
    | .error e => .error e
    | .ok b =>
      match updateItems now observation rest with
      | .error e => .error e
      | .ok bs => .ok (b :: bs)

/-- The function `addObservation`; `now` is the value of its `new Date()`.  The
result is the store after the call and the exception the call ended with, if
any: when the `map` throws, `staticObservations` is not assigned. -/
def addObservation (now : Time) (s : Store) (observation : Observation) :
    Store × Option JsError :=
  if observation.device_id ∈ s.activeDevices then
    match updateItems now observation s.staticObservations with
    | .ok items => ({ s with staticObservations := items }, none)
    | .error e => (s, some e)
  else
    ({ staticObservations :=
        s.staticObservations ++
          [{ device_id := observation.device_id
             observations := [(observation.observation_id, [observation])]
             last_updated := now }]
       activeDevices := s.activeDevices ++ [observation.device_id] }, none)

/-- What the callback returns when it returns. -/
def updateItemOk (now : Time) (observation : Observation) (item : DeviceBuffer) : DeviceBuffer :=
  if item.device_id = observation.device_id then
    appended now observation item
      (match getKey observation.observation_id item.observations with
       | some w => jsSlice (-(DEFAULT_LISTING_LIMIT : Int)) w
       | none => [])
  else item

/-- The store after a call of `addObservation` that returns. -/
def addObservationOk (now : Time) (s : Store) (observation : Observation) : Store :=
  if observation.device_id ∈ s.activeDevices then
    { s with staticObservations := s.staticObservations.map (updateItemOk now observation) }
  else
    { staticObservations :=
        s.staticObservations ++
          [{ device_id := observation.device_id
             observations := [(observation.observation_id, [observation])]
             last_updated := now }]
      activeDevices := s.activeDevices ++ [observation.device_id] }

/-- The buffer of a device in the store, if there is one. -/
def Store.buffer (s : Store) (d : Option String) : Option DeviceBuffer :=
  s.staticObservations.find? (fun b => decide (b.device_id = d))

/-- The stored window `staticObservations[device].observations[observation_id]`;
`none` when the device or the observation type has not been seen. -/
def Store.window (s : Store) (d : Option String) (k : String) : Option (List Observation) :=
  match s.buffer d with
  | some b => getKey k b.observations
  | none => none

/-- Calls of `addObservation` one after the other, each with its own clock
reading: the store after the last one.  A call that throws leaves the store as
it was and the next call goes on from there. -/
def addAll (s : Store) : List (Time × Observation) → Store
  | [] => s
  | (t, o) :: rest => addAll (addObservation t s o).1 rest

/-- A heart-rate reading of monitor `m1` whose value is `n`. -/
def hr (n : Nat) : Observation :=
  { device_id := some "m1", observation_id := "heart-rate", date_time := none,
    status := some "final", value := .num n, low_limit := .undefined,
    high_limit := .undefined, systolic := .undefined, diastolic := .undefined }

/-- Eleven heart-rate readings of `m1`, numbered 1 to 11, added at times 1 to 11. -/
def elevenReadings : List (Time × Observation) :=
  (List.range 11).map (fun i => (((i + 1 : Nat) : Int), hr (i + 1)))


/-- One buffer per active device, in the same order, no device twice. -/
def Store.WF (s : Store) : Prop :=
  s.staticObservations.map (fun b => b.device_id) = s.activeDevices ∧ s.activeDevices.Nodup

/-- Every stored window is non-empty and holds only readings of its own device
and observation type that satisfy `P`. -/
def Store.Good (P : Observation → Prop) (s : Store) : Prop :=
  ∀ b ∈ s.staticObservations, ∀ kw ∈ b.observations,
    kw.2 ≠ [] ∧ ∀ x ∈ kw.2, x.device_id = b.device_id ∧ x.observation_id = kw.1 ∧ P x

/-- The last `n` elements of a list. -/
def lastN {β : Type} (n : Nat) (xs : List β) : List β :=
  xs.drop (xs.length - n)

/-- The readings of device `d` and type `k` among a sequence of additions, in
the order they were added. -/
def matching (d : Option String) (k : String) (adds : List (Time × Observation)) :
    List Observation :=
  (adds.map Prod.snd).filter (fun o => decide (o.device_id = d ∧ o.observation_id = k))

/-! ## Observation normalizer -/

/-- A JavaScript value seen by `Array.isArray`: a value that is not an array,
or an array of such values. -/
inductive Nested (α : Type) where
  | leaf (a : α)
  | array (items : List (Nested α))

mutual
/-- The function `flattenObservations`: an array is reduced, anything else is
wrapped in a one-element array. -/
def flattenObservations {α : Type} : Nested α → List α
  | .leaf a => [a]
  | .array items => flattenReduce [] items
/-- The call
`observations.reduce((acc, observation) => acc.concat(flattenObservations(observation)), [])`
as a left fold with its accumulator. -/
def flattenReduce {α : Type} (acc : List α) : List (Nested α) → List α
  | [] => acc
  | observation :: rest => flattenReduce (acc ++ flattenObservations observation) rest
end

mutual
/-- The non-array elements of a nested input, left to right: the leaves of the
first element, then those of the second, and so on. -/
def Nested.leaves {α : Type} : Nested α → List α
  | .leaf a => [a]
  | .array items => Nested.leavesOfList items
/-- The leaves of the elements of an array, concatenated in order. -/
def Nested.leavesOfList {α : Type} : List (Nested α) → List α
  | [] => []
  | x :: rest => Nested.leaves x ++ Nested.leavesOfList rest
end

mutual
/-- The number of non-array elements of a nested input. -/
def Nested.countLeaves {α : Type} : Nested α → Nat
  | .leaf _ => 1
  | .array items => Nested.countOfList items
/-- The number of leaves below the elements of an array. -/
def Nested.countOfList {α : Type} : List (Nested α) → Nat
  | [] => 0
  | x :: rest => Nested.countLeaves x + Nested.countOfList rest
end

/-! ## Ingestion -/

/-- The request body `req.body`: a primitive, or an observation object or
(nested) array of observation objects. -/
inductive Body where
  | undefined
  | null
  | bool (b : Bool)
  | number (q : Rat)
  | string (s : String)
  | payload (p : Nested Observation)

/-- The test `!observations`. -/
def Body.falsy : Body → Bool
  | .undefined => true
  | .null => true
  | .bool b => !b
  | .number q => decide (q = 0)
  | .string s => decide (s = "")
  | .payload _ => false

/-- The result of `typeof observations`. -/
def Body.typeof : Body → String
  | .undefined => "undefined"
  | .null => "object"
  | .bool _ => "boolean"
  | .number _ => "number"
  | .string _ => "string"
  | .payload _ => "object"

/-- One element of `logData`. -/
structure LogEntry where
  dateTime : Time
  data : Body

/-- The function `addLogData`; `now` is the value of its `new Date()`. -/
def addLogData (now : Time) (logData : List LogEntry) (newData : Body) : List LogEntry :=
  jsSlice ((logData.length : Int) - (DEFAULT_LISTING_LIMIT : Int)) logData ++
    [{ dateTime := now, data := newData }]

/-- The latest-vitals index `latestObservation`: per device, per observation
type, one reading. -/
abbrev LatestVitals := List (Option String × List (String × Observation))

/-- Modelled from the spec: `ObservationsMap.set` of `utils/ObservationsMap.js`,
which is not among the sources.  For each observation of the batch, in order,
the entry for its device and observation type is replaced by it. -/
def LatestVitals.set (index : LatestVitals) (observations : List Observation) : LatestVitals :=
  observations.foldl
    (fun idx o =>
      setKey o.device_id (setKey o.observation_id o ((getKey o.device_id idx).getD [])) idx)
    index

/-- A subscriber returned by `filterClients(req.wsInstance.getWss(), "/observations")`:
the connection it is, its tag `client?.params?.ip`, and whether its `send`
throws. -/
structure Client where
  conn : Nat
  ip : Option String
  sendThrows : Bool
  deriving DecidableEq

/-- The `forEach` over the subscribers in `updateObservations`: the calls of
`client.send`, in order, each with the observations it serialises, and the
exception that ended the loop, if one did. -/
def fanOut (flattenedObservations : List Observation) :
    List Client → List (Client × List Observation) × Option JsError
  | [] => ([], none)
  | client :: rest =>
    let filteredObservations :=
      flattenedObservations.filter (fun observation => decide (observation.device_id = client.ip))
    if filteredObservations.length ≠ 0 then
      if client.sendThrows then
        ([(client, filteredObservations)], some (.thrown "send"))
      else
        ((client, filteredObservations) :: (fanOut flattenedObservations rest).1,
          (fanOut flattenedObservations rest).2)
    else fanOut flattenedObservations rest

/-- The loop `flattenedObservations.forEach((observation) => addObservation(observation))`;
the `k`-th clock reading of the request is `clock k`.  A call that throws ends
the loop: the result is the store at that point and the exception. -/
def recordAll (clock : Nat → Time) : Nat → Store → List Observation → Store × Option JsError
  | _, s, [] => (s, none)
  | k, s, observation :: rest =>
    match addObservation (clock k) s observation with
    | (s1, none) => recordAll clock (k + 1) s1 rest
    | (s1, some e) => (s1, some e)

/-- The module state of the controller. -/
structure ServerState where
  store : Store
  lastRequestData : Body
  logData : List LogEntry
  lastUpdatedToCare : Option Time
  latestObservation : LatestVitals

/-- One hour in milliseconds, the literal `3600 * 1000`. -/
def HOUR : Int := 3600 * 1000

/-- The gate `if (now - lastUpdatedToCare < 3600 * 1000) return`; in the
subtraction `null` converts to `0`. -/
def gateClosed (now : Time) (lastUpdatedToCare : Option Time) : Bool :=
  decide (now - lastUpdatedToCare.getD 0 < HOUR)

/-- The value of `lastUpdatedToCare` once the gate has been passed or not. -/
def gateNext (now : Time) (lastUpdatedToCare : Option Time) : Option Time :=
  if gateClosed now lastUpdatedToCare then lastUpdatedToCare else some now

/-- What a call of `updateObservations` leaves behind: the module state, the
calls of `client.send`, the response or the exception thrown, and the sync pass
it started (invocation time and store snapshot), if the gate let it. -/
structure Outcome where
  state : ServerState
  sent : List (Client × List Observation)
  response : Except JsError Body
  pass : Option (Time × List DeviceBuffer)

/-- The handler `updateObservations`.  `clock k` is the `k`-th `new Date()` of
the call: one in `addLogData`, one per `addObservation`, one in
`updateObservationsToCare`.  An exception thrown by `client.send` or by
`addObservation` leaves the handler at once.  Of the asynchronous
`updateObservationsToCare()` the handler sees the gate; the pass it starts is
returned in `pass`. -/
def updateObservations (clock : Nat → Time) (clients : List Client) (st : ServerState)
    (body : Body) : Outcome :=
  let st1 : ServerState :=
    { st with lastRequestData := body, logData := addLogData (clock 0) st.logData body }
  if body.falsy then
    ⟨st1, [], .error (.badRequest "No observations provided"), none⟩
  else if body.typeof ≠ "object" then
    ⟨st1, [], .error (.badRequest "Invalid observations provided"), none⟩
  else
    match body with
    | .payload p =>
      let flattenedObservations := flattenObservations p
      let st2 : ServerState :=
        { st1 with latestObservation := st1.latestObservation.set flattenedObservations }
      match fanOut flattenedObservations clients with
      | (sent, some e) => ⟨st2, sent, .error e, none⟩
      | (sent, none) =>
        match recordAll clock 1 st2.store flattenedObservations with
        | (store, some e) => ⟨{ st2 with store := store }, sent, .error e, none⟩
        | (store, none) =>
          let now := clock (1 + flattenedObservations.length)
          ⟨{ st2 with store := store, lastUpdatedToCare := gateNext now st2.lastUpdatedToCare },
            sent, .ok body,
            if gateClosed now st2.lastUpdatedToCare then none
            else some (now, store.staticObservations)⟩
    -- not reached: a body that is truthy and of type object is a payload
    | _ => ⟨st1, [], .error (.badRequest "Invalid observations provided"), none⟩

/-! ## Upstream sync -/

/-- The function `getValueFromData`; `none` is an `undefined` argument. -/
def getValueFromData (data : Option Observation) : JsNum :=
  match data with
  | some o =>
    if o.status = some "final" then
      match o.value with
      | .num q => .num q
      | _ => .null
    else .null
  | none => .null

/-- The conversion `ToNumber` on a numeric field: `undefined` is `NaN`
(`none`), `null` is `0`. -/
def JsNum.toNumber : JsNum → Option Rat
  | .undefined => none
  | .null => some 0
  | .num q => some q

/-- The relational operator `a < b`; a comparison with `NaN` is false. -/
def jsLt (a b : JsNum) : Bool :=
  match a.toNumber, b.toNumber with
  | some x, some y => decide (x < y)
  | _, _ => false

/-- The expression `data[key]?.[0]`. -/
def firstEntry (data : List (String × List Observation)) (key : String) : Option Observation :=
  match getKey key data with
  | some w => w.head?
  | none => none

/-- The request payload of a daily round. -/
structure Payload where
  taken_at : Time
  rounds_type : String
  spo2 : JsNum
  resp : JsNum
  pulse : JsNum
  bp : Option (JsNum × JsNum)
  temperature : JsNum
  temperature_measured_at : Option String
  deriving DecidableEq

/-- Lines 145 to 172 of `updateObservationsToCare`: the payload built from a
device buffer.  `toISOString` is the answer of
`dayjs(date-time, "YYYY-MM-DD HH:mm:ss").toISOString()` should it be called:
the string, or `none` when it throws a `RangeError`. -/
def derivePayload (observation : DeviceBuffer) (toISOString : Option String) :
    Except JsError Payload :=
  let data := observation.observations
  let bp : Option (JsNum × JsNum) :=
    match firstEntry data "SpO2" with
    | some o => if o.status = some "final" then some (o.systolic, o.diastolic) else none
    | none => none
  let entry := firstEntry data "body-temperature1"
  let temperature := getValueFromData entry
  let lowLimit := match entry with
    | some o => o.low_limit
    | none => .undefined
  let highLimit := match entry with
    | some o => o.high_limit
    | none => .undefined
  let finish (temperature : JsNum) (temperature_measured_at : Option String) : Payload :=
    { taken_at := observation.last_updated
      rounds_type := "NORMAL"
      spo2 := getValueFromData (firstEntry data "SpO2")
      resp := getValueFromData (firstEntry data "respiratory-rate")
      pulse := getValueFromData (firstEntry data "heart-rate")
      bp := bp
      temperature := temperature
      temperature_measured_at := temperature_measured_at }
  if jsLt temperature lowLimit || jsLt highLimit temperature then
    .ok (finish .null none)
  else
    match toISOString with
    | some iso => .ok (finish temperature (some iso))
    | none => .error (.rangeError "Invalid time value")

/-- An asset of the device directory. -/
structure Asset where
  externalId : String
  ipAddress : String
  deriving DecidableEq

/-- The result of `getPatientId`. -/
structure PatientContext where
  consultation_id : Option String
  patient_id : Option String
  deriving DecidableEq

/-- How the promise of `axios.post` settles: fulfilled, rejected with an error
that carries a `response`, or rejected with one that does not. -/
inductive PostResult where
  | fulfilled
  | rejectedWithResponse
  | rejectedWithoutResponse
  deriving DecidableEq

/-- The answers of the external collaborators to the calls made for one device
of the pass, should they be made. -/
structure Responses where
  getAsset : Except JsError (Option Asset)
  getPatientId : Except JsError PatientContext
  toISOString : Option String
  post : PostResult

/-- What a sync pass does that is visible outside the function. -/
inductive Effect where
  | setLastUpdatedToCare (now : Time)
  | getAsset (device_id : Option String)
  | getPatientId (externalId : String)
  | post (consultation_id : Option String) (payload : Payload) (headers : String)
  | logPostError (ipAddress : String)
  | logError (error : JsError)
  deriving DecidableEq

/-- The test `!patient_id`. -/
def falsyId : Option String → Bool
  | none => true
  | some s => decide (s = "")

/-- The expression `generateHeaders(asset.externalId)` of line 177.  The
controller neither defines nor imports `generateHeaders`, so evaluating the
identifier throws a `ReferenceError` and nothing is called. -/
def generateHeaders (_externalId : String) : Except JsError String :=
  .error (.referenceError "generateHeaders is not defined")

/-- The body of the `try` block for one device: the effects in program order,
and the exception that left the block, if one did.  The arguments of
`axios.post` are evaluated before the call, so the post is made only once
`generateHeaders(asset.externalId)` has given the headers. -/
def deviceBody (now : Time) (observation : DeviceBuffer) (r : Responses) :
    List Effect × Option JsError :=
  if now - observation.last_updated > HOUR then ([], none)
  else
    match r.getAsset with
    | .error e => ([.getAsset observation.device_id], some e)
    | .ok none => ([.getAsset observation.device_id], none)
    | .ok (some asset) =>
      match r.getPatientId with
      | .error e =>
        ([.getAsset observation.device_id, .getPatientId asset.externalId], some e)
      | .ok ctx =>
        if falsyId ctx.patient_id then
          ([.getAsset observation.device_id, .getPatientId asset.externalId], none)
        else
          match derivePayload observation r.toISOString with
          | .error e =>
            ([.getAsset observation.device_id, .getPatientId asset.externalId], some e)
          | .ok payload =>
            match generateHeaders asset.externalId with
            | .error e =>
              ([.getAsset observation.device_id, .getPatientId asset.externalId], some e)
            | .ok headers =>
              let calls : List Effect :=
                [.getAsset observation.device_id, .getPatientId asset.externalId,
                  .post ctx.consultation_id payload headers]
              match r.post with
              | .fulfilled => (calls, none)
              | .rejectedWithResponse => (calls ++ [.logPostError asset.ipAddress], none)
              | .rejectedWithoutResponse =>
                (calls, some (.typeError "Cannot read properties of undefined"))

/-- One turn of the `for` loop: the `try` block with its `catch`, which logs
the exception and lets the loop go on. -/
def tryDevice (now : Time) (x : DeviceBuffer × Responses) : List Effect × Option JsError :=
  match deviceBody now x.1 x.2 with
  | (effects, none) => (effects, none)
  | (effects, some error) => (effects ++ [.logError error], none)

/-- The loop `for (const observation of staticObservations)`: an exception that
leaves a turn ends the loop and leaves the function. -/
def syncLoop (now : Time) : List (DeviceBuffer × Responses) → List Effect × Option JsError
  | [] => ([], none)
  | x :: rest =>
    match tryDevice now x with
    | (effects, some error) => (effects, some error)
    | (effects, none) => (effects ++ (syncLoop now rest).1, (syncLoop now rest).2)

/-- The function `updateObservationsToCare` called at time `now` on the store
snapshot, each buffer with the answers of the collaborators for it. -/
def updateObservationsToCare (now : Time) (lastUpdatedToCare : Option Time)
    (snapshot : List (DeviceBuffer × Responses)) : List Effect × Option JsError :=
  if gateClosed now lastUpdatedToCare then ([], none)
  else
    (.setLastUpdatedToCare now :: (syncLoop now snapshot).1, (syncLoop now snapshot).2)

/-- The value of `lastUpdatedToCare` after the effects of a call. -/
def lastUpdatedAfter (lastUpdatedToCare : Option Time) : List Effect → Option Time
  | [] => lastUpdatedToCare
  | .setLastUpdatedToCare now :: rest => lastUpdatedAfter (some now) rest
  | _ :: rest => lastUpdatedAfter lastUpdatedToCare rest

/-- Invocations of `updateObservationsToCare` one after the other, from the
given value of `lastUpdatedToCare`: the effects of each. -/
def runSync (lastUpdatedToCare : Option Time) :
    List (Time × List (DeviceBuffer × Responses)) → List (List Effect)
  | [] => []
  | (now, snapshot) :: rest =>
    (updateObservationsToCare now lastUpdatedToCare snapshot).1 ::
      runSync (lastUpdatedAfter lastUpdatedToCare
        (updateObservationsToCare now lastUpdatedToCare snapshot).1) rest

/-! ## Concrete inputs -/

/-- The object `{}`: every field absent; an absent `observation_id` is the
property key `"undefined"`. -/
def emptyObject : Observation :=
  { device_id := none, observation_id := "undefined", date_time := none, status := none,
    value := .undefined, low_limit := .undefined, high_limit := .undefined,
    systolic := .undefined, diastolic := .undefined }

/-- The module state when the process starts. -/
def ServerState.init : ServerState :=
  { store := Store.empty
    lastRequestData := .payload (.leaf emptyObject)
    logData := []
    lastUpdatedToCare := none
    latestObservation := [] }

/-- A subscriber of monitor `m1` whose `send` throws. -/
def brokenClient : Client := { conn := 1, ip := some "m1", sendThrows := true }

/-- A second subscriber of monitor `m1`, whose `send` works. -/
def healthyClient : Client := { conn := 2, ip := some "m1", sendThrows := false }

/-- A clock that always reads 1 January 2024, 00:00:00 UTC. -/
def fixedClock : Nat → Time := fun _ => 1704067200000

/-- The sends when no subscriber with matching observations throws. -/
def deliveries (flattened : List Observation) (clients : List Client) :
    List (Client × List Observation) :=
  clients.filterMap (fun c =>
    if flattened.filter (fun o => decide (o.device_id = c.ip)) = [] then none
    else some (c, flattened.filter (fun o => decide (o.device_id = c.ip))))


/-- The observations of a batch, each with the clock reading of its
`addObservation`, the first one being reading `k`. -/
def stamp (clock : Nat → Time) : Nat → List Observation → List (Time × Observation)
  | _, [] => []
  | k, o :: rest => (clock k, o) :: stamp clock (k + 1) rest

/-- No stored window is longer than eleven readings. -/
def Store.Bounded (s : Store) : Prop :=
  ∀ (d : Option String) (k : String), ((s.window d k).getD []).length ≤ 11

/-- Whether an effect is the assignment to `lastUpdatedToCare`. -/
def Effect.isGateWrite : Effect → Bool
  | .setLastUpdatedToCare _ => true
  | _ => false

/-- An SpO2 reading of monitor `m1` with status "final" and value `n`. -/
def spo2 (n : Nat) : Observation :=
  { device_id := some "m1", observation_id := "SpO2", date_time := none,
    status := some "final", value := .num n, low_limit := .undefined,
    high_limit := .undefined, systolic := .undefined, diastolic := .undefined }

/-- A respiratory-rate reading of monitor `m1` with status "final" and value `n`. -/
def rr (n : Nat) : Observation :=
  { device_id := some "m1", observation_id := "respiratory-rate", date_time := none,
    status := some "final", value := .num n, low_limit := .undefined,
    high_limit := .undefined, systolic := .undefined, diastolic := .undefined }

/-- Monitor `m1` reports SpO2 90 then 97, respiratory rate 30 then 16 and heart
rate 120 then 72, one reading a second. -/
def vitalsTwice : List (Time × Observation) :=
  [(1704067200000, spo2 90), (1704067201000, rr 30), (1704067202000, hr 120),
    (1704067203000, spo2 97), (1704067204000, rr 16), (1704067205000, hr 72)]

/-- The buffer of `m1` after `vitalsTwice`. -/
def vitalsBuffer : DeviceBuffer :=
  { device_id := some "m1"
    observations :=
      [("SpO2", [spo2 90, spo2 97]), ("respiratory-rate", [rr 30, rr 16]),
        ("heart-rate", [hr 120, hr 72])]
    last_updated := 1704067205000 }

/-- A temperature reading of monitor `m1` that is not final (the probe is off),
without a value and without limits. -/
def probeOff : Observation :=
  { device_id := some "m1", observation_id := "body-temperature1",
    date_time := some "2024-01-01 00:00:00", status := some "Message-Leads Off",
    value := .null, low_limit := .undefined, high_limit := .undefined,
    systolic := .undefined, diastolic := .undefined }

/-- The buffer of `m1` after `probeOff` has been added to the empty store. -/
def probeOffBuffer : DeviceBuffer :=
  { device_id := some "m1"
    observations := [("body-temperature1", [probeOff])]
    last_updated := 1704067200000 }

/-- Directory answers for a device whose asset lookup is rejected. -/
def lookupFails : Responses :=
  { getAsset := .error (.thrown "connect ECONNREFUSED")
    getPatientId := .ok { consultation_id := some "c1", patient_id := some "p1" }
    toISOString := some "2024-01-01T00:00:00.000Z"
    post := .fulfilled }

/-- Answers for a device whose every call succeeds. -/
def allSucceed : Responses :=
  { getAsset := .ok (some { externalId := "a1", ipAddress := "10.0.0.1" })
    getPatientId := .ok { consultation_id := some "c1", patient_id := some "p1" }
    toISOString := some "2024-01-01T00:00:00.000Z"
    post := .fulfilled }

/-- The buffer of `m1` an hour later, its last reading one second old. -/
def refreshedBuffer : DeviceBuffer := { vitalsBuffer with last_updated := 1704070805000 }

/-- Three invocations of the sync with monitor `m1` in the store: on 1 January
2024 (UTC) at 00:00:06, one second later, and one hour after the first. -/
def threeCalls : List (Time × List (DeviceBuffer × Responses)) :=
  [(1704067206000, [(vitalsBuffer, allSucceed)]), (1704067207000, [(vitalsBuffer, allSucceed)]),
    (1704070806000, [(refreshedBuffer, allSucceed)])]

/-- A reading of the given monitor. -/
def readingOf (device : String) : Observation :=
  { device_id := some device, observation_id := "heart-rate", date_time := none,
    status := some "final", value := .num 72, low_limit := .undefined,
    high_limit := .undefined, systolic := .undefined, diastolic := .undefined }

/-- A working subscriber tagged "dev-A". -/
def subscriberA : Client := { conn := 1, ip := some "dev-A", sendThrows := false }

/-- A working subscriber tagged "dev-B". -/
def subscriberB : Client := { conn := 2, ip := some "dev-B", sendThrows := false }

/-- A reading of monitor `m1` whose `observation_id` is "toString". -/
def toStringReading : Observation :=
  { device_id := some "m1", observation_id := "toString", date_time := none,
    status := some "final", value := .num 2, low_limit := .undefined,
    high_limit := .undefined, systolic := .undefined, diastolic := .undefined }

/-- The buffer of a second monitor, `m2`, with one heart-rate reading. -/
def secondBuffer : DeviceBuffer :=
  { device_id := some "m2"
    observations := [("heart-rate", [readingOf "m2"])]
    last_updated := 1704067205000 }
/-! ## Store invariants -/

theorem updateItemOk_device_id (t : Time) (o : Observation) (b : DeviceBuffer) :
    (updateItemOk t o b).device_id = b.device_id := by
  unfold updateItemOk
  split <;> rfl

theorem updateItemOk_of_ne (t : Time) (o : Observation) (b : DeviceBuffer)
    (h : b.device_id ≠ o.device_id) : updateItemOk t o b = b := by
  unfold updateItemOk
  rw [if_neg h]

theorem map_updateItemOk_device_id (t : Time) (o : Observation) (l : List DeviceBuffer) :
    (l.map (updateItemOk t o)).map (fun b => b.device_id) = l.map (fun b => b.device_id) := by
  induction l with
  | nil => rfl
  | cons b l ih => simp [updateItemOk_device_id] 

theorem addObservationOk_wf (t : Time) (s : Store) (o : Observation) (h : s.WF) :
    (addObservationOk t s o).WF := by
  obtain ⟨h1, h2⟩ := h
  unfold addObservationOk
  by_cases hm : o.device_id ∈ s.activeDevices
  · rw [if_pos hm]
    exact ⟨(map_updateItemOk_device_id t o s.staticObservations).trans h1, h2⟩
  · rw [if_neg hm]
    refine ⟨by simp [h1], ?_⟩
    simpa [List.nodup_append, hm] using h2

theorem empty_wf : Store.empty.WF := ⟨rfl, List.nodup_nil⟩

theorem mem_setKey {β : Type} (key : String) (v : β) (l : List (String × β))
    (kw : String × β) (h : kw ∈ setKey key v l) : kw = (key, v) ∨ kw ∈ l := by
  induction l with
  | nil => left; simpa [setKey] using h
  | cons a rest ih =>
    obtain ⟨k, w⟩ := a
    unfold setKey at h
    by_cases hk : k = key
    · rw [if_pos hk] at h
      rcases List.mem_cons.mp h with h | h
      · left; rw [h, hk]
      · right; exact List.mem_cons_of_mem _ h
    · rw [if_neg hk] at h
      rcases List.mem_cons.mp h with h | h
      · right; rw [h]; exact List.mem_cons_self _ _
      · rcases ih h with h | h
        · left; exact h
        · right; exact List.mem_cons_of_mem _ h

theorem getKey_mem {β : Type} (key : String) (l : List (String × β)) (w : β)
    (h : getKey key l = some w) : (key, w) ∈ l := by
  induction l with
  | nil => simp [getKey] at h
  | cons a rest ih =>
    obtain ⟨k, v⟩ := a
    unfold getKey at h
    by_cases hk : k = key
    · rw [if_pos hk] at h
      cases h
      rw [hk]; exact List.mem_cons_self _ _
    · rw [if_neg hk] at h
      exact List.mem_cons_of_mem _ (ih h)

theorem mem_jsSlice {β : Type} (start : Int) (xs : List β) (x : β)
    (h : x ∈ jsSlice start xs) : x ∈ xs :=
  List.mem_of_mem_drop h

theorem updateItemOk_good (P : Observation → Prop) (t : Time) (o : Observation)
    (b : DeviceBuffer) (hP : P o)
    (hb : ∀ kw ∈ b.observations,
      kw.2 ≠ [] ∧ ∀ x ∈ kw.2, x.device_id = b.device_id ∧ x.observation_id = kw.1 ∧ P x) :
    ∀ kw ∈ (updateItemOk t o b).observations,
      kw.2 ≠ [] ∧ ∀ x ∈ kw.2,
        x.device_id = (updateItemOk t o b).device_id ∧ x.observation_id = kw.1 ∧ P x := by
  intro kw hkw
  rw [updateItemOk_device_id]
  unfold updateItemOk at hkw
  by_cases hd : b.device_id = o.device_id
  · rw [if_pos hd] at hkw
    rcases mem_setKey _ _ _ _ hkw with h | h
    · subst h
      refine ⟨by simp, ?_⟩
      intro x hx
      rcases List.mem_append.mp hx with hx | hx
      · cases hg : getKey o.observation_id b.observations with
        | none => rw [hg] at hx; simp at hx
        | some w =>
          rw [hg] at hx
          exact (hb _ (getKey_mem _ _ _ hg)).2 x (mem_jsSlice _ _ _ hx)
      · rw [List.mem_singleton.mp hx]
        exact ⟨hd.symm, rfl, hP⟩
    · exact hb kw h
  · rw [if_neg hd] at hkw
    exact hb kw hkw

theorem addObservationOk_good (P : Observation → Prop) (t : Time) (s : Store)
    (o : Observation) (hP : P o) (h : s.Good P) : (addObservationOk t s o).Good P := by
  unfold addObservationOk
  by_cases hm : o.device_id ∈ s.activeDevices
  · rw [if_pos hm]
    intro b hb
    obtain ⟨b0, hb0, rfl⟩ := List.mem_map.mp hb
    exact updateItemOk_good P t o b0 hP (h b0 hb0)
  · rw [if_neg hm]
    intro b hb
    rcases List.mem_append.mp hb with hb | hb
    · exact h b hb
    · rw [List.mem_singleton.mp hb]
      intro kw hkw
      rw [List.mem_singleton.mp hkw]
      refine ⟨by simp, ?_⟩
      intro x hx
      rw [List.mem_singleton.mp hx]
      exact ⟨rfl, rfl, hP⟩

theorem empty_good (P : Observation → Prop) : Store.empty.Good P := by
  intro b hb
  simp [Store.empty] at hb

theorem addObservationOk_others (t : Time) (s : Store) (o : Observation) :
    (addObservationOk t s o).staticObservations.filter
        (fun b => decide (b.device_id ≠ o.device_id)) =
      s.staticObservations.filter (fun b => decide (b.device_id ≠ o.device_id)) := by
  unfold addObservationOk
  by_cases hm : o.device_id ∈ s.activeDevices
  · rw [if_pos hm]
    show (s.staticObservations.map (updateItemOk t o)).filter _ = _
    induction s.staticObservations with
    | nil => rfl
    | cons b l ih =>
      by_cases hd : b.device_id = o.device_id
      · simp only [List.map_cons, List.filter_cons, updateItemOk_device_id, hd, ne_eq,
          not_true_eq_false, decide_False, Bool.false_eq_true, if_false]
        simpa using ih
      · simp only [List.map_cons, updateItemOk_of_ne t o b hd, List.filter_cons, hd, ne_eq,
          not_false_eq_true, decide_True, if_true]
        simpa using ih
  · rw [if_neg hm]
    simp


/-! ## Calls that throw and calls that return -/

theorem updateItem_eq (t : Time) (o : Observation) (b : DeviceBuffer) :
    updateItem t o b = .ok (updateItemOk t o b) ∨
    ∃ e, updateItem t o b = .error e ∧ o.observation_id ∈ inheritedKeys := by
  unfold updateItem updateItemOk
  by_cases hd : b.device_id = o.device_id
  · rw [if_pos hd, if_pos hd]
    cases hg : getKey o.observation_id b.observations with
    | some w => left; rfl
    | none =>
      by_cases hk : o.observation_id ∈ inheritedKeys
      · right; rw [if_pos hk]; exact ⟨_, rfl, hk⟩
      · left; rw [if_neg hk]
  · rw [if_neg hd, if_neg hd]
    left; rfl

theorem updateItems_eq (t : Time) (o : Observation) (l : List DeviceBuffer) :
    updateItems t o l = .ok (l.map (updateItemOk t o)) ∨
    ∃ e, updateItems t o l = .error e ∧ o.observation_id ∈ inheritedKeys := by
  induction l with
  | nil => left; rfl
  | cons b rest ih =>
    rcases updateItem_eq t o b with h | ⟨e, h, hk⟩
    · rcases ih with h2 | ⟨e, h2, hk⟩
      · left; simp only [updateItems, h, h2, List.map_cons]
      · right; exact ⟨e, by simp only [updateItems, h, h2], hk⟩
    · right; exact ⟨e, by simp only [updateItems, h], hk⟩

/-- A call of `addObservation` either returns, with the store of a returning
call, or throws on an inherited observation name and leaves the store as it
was. -/
theorem addObservation_eq (t : Time) (s : Store) (o : Observation) :
    addObservation t s o = (addObservationOk t s o, none) ∨
    ∃ e, addObservation t s o = (s, some e) ∧ o.observation_id ∈ inheritedKeys := by
  unfold addObservation addObservationOk
  by_cases hm : o.device_id ∈ s.activeDevices
  · rw [if_pos hm, if_pos hm]
    rcases updateItems_eq t o s.staticObservations with h | ⟨e, h, hk⟩
    · left; simp only [h]
    · right; exact ⟨e, by simp only [h], hk⟩
  · rw [if_neg hm, if_neg hm]
    left; rfl

theorem addObservation_of_not_inherited (t : Time) (s : Store) (o : Observation)
    (h : o.observation_id ∉ inheritedKeys) :
    addObservation t s o = (addObservationOk t s o, none) := by
  rcases addObservation_eq t s o with h2 | ⟨e, _, hk⟩
  · exact h2
  · exact absurd hk h

theorem addObservation_wf (t : Time) (s : Store) (o : Observation) (h : s.WF) :
    (addObservation t s o).1.WF := by
  rcases addObservation_eq t s o with h2 | ⟨e, h2, _⟩
  · rw [h2]; exact addObservationOk_wf t s o h
  · rw [h2]; exact h

theorem addObservation_good (P : Observation → Prop) (t : Time) (s : Store)
    (o : Observation) (hP : P o) (h : s.Good P) : (addObservation t s o).1.Good P := by
  rcases addObservation_eq t s o with h2 | ⟨e, h2, _⟩
  · rw [h2]; exact addObservationOk_good P t s o hP h
  · rw [h2]; exact h

theorem addObservation_others (t : Time) (s : Store) (o : Observation) :
    (addObservation t s o).1.staticObservations.filter
        (fun b => decide (b.device_id ≠ o.device_id)) =
      s.staticObservations.filter (fun b => decide (b.device_id ≠ o.device_id)) := by
  rcases addObservation_eq t s o with h2 | ⟨e, h2, _⟩
  · rw [h2]; exact addObservationOk_others t s o
  · rw [h2]

theorem addAll_wf (adds : List (Time × Observation)) :
    ∀ s : Store, s.WF → (addAll s adds).WF := by
  induction adds with
  | nil => intro s h; exact h
  | cons a rest ih =>
    intro s h
    obtain ⟨t, o⟩ := a
    exact ih _ (addObservation_wf t s o h)

theorem addAll_good (P : Observation → Prop) (adds : List (Time × Observation)) :
    ∀ s : Store, s.Good P → (∀ a ∈ adds, P a.2) → (addAll s adds).Good P := by
  induction adds with
  | nil => intro s h _; exact h
  | cons a rest ih =>
    intro s h hP
    obtain ⟨t, o⟩ := a
    exact ih _ (addObservation_good P t s o (hP (t, o) (List.mem_cons_self _ _)) h)
      (fun a ha => hP a (List.mem_cons_of_mem _ ha))

/-! ## Normalizer -/

mutual
theorem flattenObservations_eq_leaves {α : Type} :
    ∀ x : Nested α, flattenObservations x = x.leaves
  | .leaf a => by rw [flattenObservations, Nested.leaves]
  | .array items => by
    rw [flattenObservations, Nested.leaves, reduce_eq_append [] items, List.nil_append]
theorem reduce_eq_append {α : Type} :
    ∀ (acc : List α) (items : List (Nested α)),
      flattenReduce acc items = acc ++ Nested.leavesOfList items
  | acc, [] => by rw [flattenReduce, Nested.leavesOfList, List.append_nil]
  | acc, x :: rest => by
    rw [flattenReduce, Nested.leavesOfList, flattenObservations_eq_leaves x,
      reduce_eq_append (acc ++ x.leaves) rest, List.append_assoc]
end

mutual
theorem length_leaves {α : Type} : ∀ x : Nested α, x.leaves.length = x.countLeaves
  | .leaf a => by rw [Nested.leaves, Nested.countLeaves, List.length_singleton]
  | .array items => by rw [Nested.leaves, Nested.countLeaves, length_leavesOfList items]
theorem length_leavesOfList {α : Type} :
    ∀ items : List (Nested α),
      (Nested.leavesOfList items).length = Nested.countOfList items
  | [] => by rw [Nested.leavesOfList, Nested.countOfList, List.length_nil]
  | x :: rest => by
    rw [Nested.leavesOfList, Nested.countOfList, List.length_append,
      length_leaves x, length_leavesOfList rest]
end

/-- C2: `flattenObservations` returns the non-array leaves of its input in
left-to-right order, as many as the input has leaves; an input that is not an
array yields the one-element sequence of itself, and the empty array yields the
empty sequence.  The result is a list of non-array values by its type. -/
theorem flattenObservations_spec {α : Type} (x : Nested α) :
    flattenObservations x = x.leaves ∧
    (flattenObservations x).length = x.countLeaves ∧
    (∀ a : α, flattenObservations (.leaf a) = [a]) ∧
    flattenObservations (.array ([] : List (Nested α))) = [] := by
  refine ⟨flattenObservations_eq_leaves x, ?_, ?_, ?_⟩
  · rw [flattenObservations_eq_leaves, length_leaves]
  · intro a; rw [flattenObservations]
  · rw [flattenObservations, flattenReduce]

/-! ## Windows after an addition -/

theorem getKey_setKey {κ β : Type} [DecidableEq κ] (k key : κ) (v : β) (l : List (κ × β)) :
    getKey k (setKey key v l) = if k = key then some v else getKey k l := by
  induction l with
  | nil =>
    by_cases h : k = key
    · simp [setKey, getKey, h]
    · have h2 : ¬ key = k := fun e => h e.symm
      simp [setKey, getKey, h, h2]
  | cons a rest ih =>
    obtain ⟨k0, w⟩ := a
    by_cases h0 : k0 = key
    · by_cases h : k = key
      · simp [setKey, getKey, h0, h]
      · have h2 : ¬ key = k := fun e => h e.symm
        simp [setKey, getKey, h0, h, h2]
    · by_cases h : k = key
      · have h3 : ¬ k0 = k := fun e => h0 (e.trans h)
        simp only [setKey, if_neg h0, getKey, if_neg h3, ih, if_pos h]
      · by_cases h4 : k0 = k
        · simp only [setKey, if_neg h0, getKey, if_pos h4, if_neg h]
        · simp only [setKey, if_neg h0, getKey, if_neg h4, ih, if_neg h]

theorem buffer_map_updateItemOk (t : Time) (o : Observation) (d : Option String)
    (l : List DeviceBuffer) :
    (l.map (updateItemOk t o)).find? (fun b => decide (b.device_id = d)) =
      (l.find? (fun b => decide (b.device_id = d))).map (updateItemOk t o) := by
  induction l with
  | nil => rfl
  | cons b rest ih =>
    by_cases h : b.device_id = d
    · simp [List.find?, updateItemOk_device_id, h]
    · simp [List.find?, updateItemOk_device_id, h, ih]

theorem buffer_none_of_not_mem (d : Option String) (l : List DeviceBuffer)
    (h : d ∉ l.map (fun b => b.device_id)) :
    l.find? (fun b => decide (b.device_id = d)) = none := by
  rw [List.find?_eq_none]
  intro b hb hd
  exact h (List.mem_map.mpr ⟨b, hb, by simpa using hd⟩)

theorem buffer_some_of_mem (d : Option String) (l : List DeviceBuffer)
    (h : d ∈ l.map (fun b => b.device_id)) :
    ∃ b, l.find? (fun b => decide (b.device_id = d)) = some b ∧ b.device_id = d := by
  cases hf : l.find? (fun b => decide (b.device_id = d)) with
  | none =>
    rw [List.find?_eq_none] at hf
    obtain ⟨b, hb, rfl⟩ := List.mem_map.mp h
    exact absurd (by simp) (hf b hb)
  | some b =>
    exact ⟨b, rfl, by simpa using List.find?_some hf⟩

/-- The window of device `d` and type `k` after one addition. -/
theorem window_addObservationOk (t : Time) (s : Store) (o : Observation)
    (h : s.staticObservations.map (fun b => b.device_id) = s.activeDevices)
    (d : Option String) (k : String) :
    (addObservationOk t s o).window d k =
      if d = o.device_id ∧ k = o.observation_id then
        some (jsSlice (-(DEFAULT_LISTING_LIMIT : Int)) ((s.window d k).getD []) ++ [o])
      else s.window d k := by
  unfold addObservationOk
  by_cases hm : o.device_id ∈ s.activeDevices
  · rw [if_pos hm]
    simp only [Store.window, Store.buffer, buffer_map_updateItemOk]
    by_cases hd : d = o.device_id
    · subst hd
      obtain ⟨b, hb, hbd⟩ := buffer_some_of_mem o.device_id s.staticObservations (h ▸ hm)
      rw [hb]
      simp only [Option.map_some', updateItemOk, appended, if_pos hbd, getKey_setKey]
      by_cases hk : k = o.observation_id
      · rw [hk]
        simp only [and_self, if_true]
        cases hg : getKey o.observation_id b.observations <;> simp [jsSlice]
      · simp [hk]
    · cases hf : s.staticObservations.find? (fun b => decide (b.device_id = d)) with
      | none => simp [hd]
      | some b =>
        have hbd : b.device_id = d := by simpa using List.find?_some hf
        have hne : b.device_id ≠ o.device_id := fun e => hd (hbd.symm.trans e)
        simp [hd, updateItemOk_of_ne t o b hne]
  · rw [if_neg hm]
    simp only [Store.window, Store.buffer, List.find?_append]
    by_cases hd : d = o.device_id
    · subst hd
      rw [buffer_none_of_not_mem o.device_id s.staticObservations (h ▸ hm)]
      by_cases hk : k = o.observation_id
      · rw [hk]
        simp [List.find?, getKey, jsSlice]
      · have hk2 : ¬ o.observation_id = k := fun e => hk e.symm
        simp [List.find?, getKey, hk, hk2]
    · have hd2 : ¬ o.device_id = d := fun e => hd e.symm
      cases hf : s.staticObservations.find? (fun b => decide (b.device_id = d)) with
      | none => simp [List.find?, hd, hd2]
      | some b => simp [hd]

/-! ## The window after a sequence of additions -/

theorem jsSlice_neg_limit {β : Type} (w : List β) :
    jsSlice (-(DEFAULT_LISTING_LIMIT : Int)) w = lastN 10 w := by
  unfold jsSlice lastN DEFAULT_LISTING_LIMIT
  have h : (if (-((10 : Nat) : Int)) < 0 then max ((w.length : Int) + -((10 : Nat) : Int)) 0
      else min (-((10 : Nat) : Int)) (w.length : Int)).toNat = w.length - 10 := by
    rw [if_pos (by decide)]
    omega
  simp only [h]

theorem length_lastN {β : Type} (n : Nat) (xs : List β) : (lastN n xs).length = min n xs.length := by
  unfold lastN
  rw [List.length_drop]
  omega

theorem lastN_of_length_le {β : Type} (n : Nat) (xs : List β) (h : xs.length ≤ n) :
    lastN n xs = xs := by
  unfold lastN
  rw [Nat.sub_eq_zero_of_le h, List.drop_zero]

theorem lastN_lastN_append {β : Type} (n m : Nat) (xs ys : List β) (h : n ≤ m + ys.length) :
    lastN n (lastN m xs ++ ys) = lastN n (xs ++ ys) := by
  unfold lastN
  rw [List.drop_append_eq_append_drop, List.drop_append_eq_append_drop, List.drop_drop,
    List.length_append, List.length_append, List.length_drop]
  congr 2 <;> omega

/-- The window, as a list, after one call, when the type asked for or the
observation's own type is not an inherited name. -/
theorem winList_addObservation (t : Time) (s : Store) (o : Observation) (h : s.WF)
    (d : Option String) (k : String)
    (hk : k ∉ inheritedKeys ∨ o.observation_id ∉ inheritedKeys) :
    ((addObservation t s o).1.window d k).getD [] =
      if d = o.device_id ∧ k = o.observation_id then lastN 10 ((s.window d k).getD []) ++ [o]
      else (s.window d k).getD [] := by
  rcases addObservation_eq t s o with h2 | ⟨e, h2, hin⟩
  · rw [h2, window_addObservationOk t s o h.1 d k, jsSlice_neg_limit]
    split <;> rfl
  · rw [h2]
    have hk2 : k ∉ inheritedKeys := hk.resolve_right (fun hn => hn hin)
    have hne : ¬ (d = o.device_id ∧ k = o.observation_id) := by
      rintro ⟨_, hko⟩
      exact hk2 (hko ▸ hin)
    rw [if_neg hne]

theorem matching_cons (d : Option String) (k : String) (t : Time) (o : Observation)
    (rest : List (Time × Observation)) :
    matching d k ((t, o) :: rest) =
      if d = o.device_id ∧ k = o.observation_id then o :: matching d k rest
      else matching d k rest := by
  unfold matching
  by_cases h : d = o.device_id ∧ k = o.observation_id
  · obtain ⟨h1, h2⟩ := h
    simp [List.filter_cons, h1, h2]
  · have h2 : ¬ (o.device_id = d ∧ o.observation_id = k) := fun e => h ⟨e.1.symm, e.2.symm⟩
    rw [if_neg h]
    simp only [List.map_cons, List.filter_cons, h2, decide_False, Bool.false_eq_true, if_false]

/-- The stored window holds the last eleven readings of its device and type,
when the type is not an inherited name or no added reading has one. -/
theorem winList_addAll (d : Option String) (k : String) (adds : List (Time × Observation))
    (hk : k ∉ inheritedKeys ∨ ∀ a ∈ adds, a.2.observation_id ∉ inheritedKeys) :
    ∀ s : Store, s.WF → ((s.window d k).getD []).length ≤ 11 →
      ((addAll s adds).window d k).getD [] =
        lastN 11 ((s.window d k).getD [] ++ matching d k adds) := by
  induction adds with
  | nil =>
    intro s _ hl
    simp only [addAll, matching, List.map_nil, List.filter_nil, List.append_nil]
    exact (lastN_of_length_le 11 _ hl).symm
  | cons a rest ih =>
    intro s hs hl
    obtain ⟨t, o⟩ := a
    have hk1 : k ∉ inheritedKeys ∨ o.observation_id ∉ inheritedKeys :=
      hk.imp id (fun h => h (t, o) (List.mem_cons_self _ _))
    have hk2 : k ∉ inheritedKeys ∨ ∀ a ∈ rest, a.2.observation_id ∉ inheritedKeys :=
      hk.imp id (fun h a ha => h a (List.mem_cons_of_mem _ ha))
    have hstep := winList_addObservation t s o hs d k hk1
    have hwf := addObservation_wf t s o hs
    rw [addAll, matching_cons]
    by_cases hm : d = o.device_id ∧ k = o.observation_id
    · rw [if_pos hm] at hstep ⊢
      have hl2 : (((addObservation t s o).1.window d k).getD []).length ≤ 11 := by
        rw [hstep, List.length_append, length_lastN, List.length_singleton]
        omega
      rw [ih hk2 _ hwf hl2, hstep, List.append_assoc, List.singleton_append,
        lastN_lastN_append 11 10 _ _ (by simp; omega)]
    · rw [if_neg hm] at hstep ⊢
      rw [ih hk2 _ hwf (by rw [hstep]; exact hl), hstep]

theorem window_empty (d : Option String) (k : String) : Store.empty.window d k = none := rfl

/-- From the empty store, the window of a device and of a type that is not an
inherited name is the last eleven readings added for them, oldest first. -/
theorem winList_from_empty (d : Option String) (k : String) (hk : k ∉ inheritedKeys)
    (adds : List (Time × Observation)) :
    ((addAll Store.empty adds).window d k).getD [] = lastN 11 (matching d k adds) := by
  have h := winList_addAll d k adds (Or.inl hk) Store.empty empty_wf (by simp [window_empty])
  simpa [window_empty] using h

/-! ## Fan-out -/

theorem fanOut_sublist (flattened : List Observation) (clients : List Client) :
    ((fanOut flattened clients).1.map Prod.fst).Sublist clients := by
  induction clients with
  | nil => simp [fanOut]
  | cons c rest ih =>
    unfold fanOut
    simp only
    split
    · split
      · simp
      · simpa using ih
    · exact List.Sublist.cons _ ih

theorem fanOut_content (flattened : List Observation) (clients : List Client) :
    ∀ cm ∈ (fanOut flattened clients).1,
      cm.2 = flattened.filter (fun o => decide (o.device_id = cm.1.ip)) ∧ cm.2 ≠ [] := by
  induction clients with
  | nil => intro cm h; simp [fanOut] at h
  | cons c rest ih =>
    intro cm h
    unfold fanOut at h
    simp only at h
    split at h
    · rename_i hlen
      have hne : flattened.filter (fun o => decide (o.device_id = c.ip)) ≠ [] := by
        intro e; rw [e] at hlen; exact hlen rfl
      split at h
      · rw [List.mem_singleton.mp h]
        exact ⟨rfl, hne⟩
      · rcases List.mem_cons.mp h with h | h
        · rw [h]; exact ⟨rfl, hne⟩
        · exact ih cm h
    · exact ih cm h

theorem deliveries_cons_of_ne (flattened : List Observation) (c : Client) (rest : List Client)
    (h : flattened.filter (fun o => decide (o.device_id = c.ip)) ≠ []) :
    deliveries flattened (c :: rest) =
      (c, flattened.filter (fun o => decide (o.device_id = c.ip))) :: deliveries flattened rest := by
  unfold deliveries
  rw [List.filterMap_cons]
  simp only [if_neg h]

theorem deliveries_cons_of_eq (flattened : List Observation) (c : Client) (rest : List Client)
    (h : flattened.filter (fun o => decide (o.device_id = c.ip)) = []) :
    deliveries flattened (c :: rest) = deliveries flattened rest := by
  unfold deliveries
  rw [List.filterMap_cons]
  simp only [if_pos h]

theorem fanOut_of_no_throw (flattened : List Observation) (clients : List Client)
    (h : ∀ c ∈ clients, c.sendThrows = true →
      flattened.filter (fun o => decide (o.device_id = c.ip)) = []) :
    fanOut flattened clients = (deliveries flattened clients, none) := by
  induction clients with
  | nil => rfl
  | cons c rest ih =>
    have ih2 := ih (fun c hc => h c (List.mem_cons_of_mem _ hc))
    unfold fanOut
    simp only
    by_cases hl : (flattened.filter (fun o => decide (o.device_id = c.ip))).length ≠ 0
    · have hne : flattened.filter (fun o => decide (o.device_id = c.ip)) ≠ [] := by
        intro e; rw [e] at hl; exact hl rfl
      have hs : c.sendThrows = false := by
        cases hc : c.sendThrows with
        | false => rfl
        | true => exact absurd (h c (List.mem_cons_self _ _) hc) hne
      rw [if_pos hl, hs, ih2, deliveries_cons_of_ne flattened c rest hne]
      rfl
    · have he : flattened.filter (fun o => decide (o.device_id = c.ip)) = [] := by
        simpa using hl
      rw [if_neg hl, ih2, deliveries_cons_of_eq flattened c rest he]

/-- The sends when a subscriber with matching observations throws: the
subscribers before it are served, it is the last one tried. -/
theorem fanOut_of_first_throw (flattened : List Observation) (pre : List Client)
    (c : Client) (post : List Client)
    (hpre : ∀ x ∈ pre, x.sendThrows = true →
      flattened.filter (fun o => decide (o.device_id = x.ip)) = [])
    (hc : c.sendThrows = true)
    (hne : flattened.filter (fun o => decide (o.device_id = c.ip)) ≠ []) :
    fanOut flattened (pre ++ c :: post) =
      (deliveries flattened pre ++ [(c, flattened.filter (fun o => decide (o.device_id = c.ip)))],
        some (.thrown "send")) := by
  induction pre with
  | nil =>
    have hl : (flattened.filter (fun o => decide (o.device_id = c.ip))).length ≠ 0 := by
      intro e; exact hne (List.length_eq_zero.mp e)
    rw [List.nil_append, fanOut]
    simp only [if_pos hl, hc, if_true]
    rfl
  | cons x rest ih =>
    have ih2 := ih (fun y hy => hpre y (List.mem_cons_of_mem _ hy))
    rw [List.cons_append, fanOut]
    by_cases hl : (flattened.filter (fun o => decide (o.device_id = x.ip))).length ≠ 0
    · have hxne : flattened.filter (fun o => decide (o.device_id = x.ip)) ≠ [] := by
        intro e; rw [e] at hl; exact hl rfl
      have hs : x.sendThrows = false := by
        cases hx : x.sendThrows with
        | false => rfl
        | true => exact absurd (hpre x (List.mem_cons_self _ _) hx) hxne
      rw [if_pos hl, hs, ih2, deliveries_cons_of_ne flattened x rest hxne]
      rfl
    · have he : flattened.filter (fun o => decide (o.device_id = x.ip)) = [] := by
        simpa using hl
      rw [if_neg hl, ih2, deliveries_cons_of_eq flattened x rest he]

theorem mem_deliveries (flattened : List Observation) (clients : List Client) (c : Client)
    (hc : c ∈ clients) (hne : flattened.filter (fun o => decide (o.device_id = c.ip)) ≠ []) :
    (c, flattened.filter (fun o => decide (o.device_id = c.ip))) ∈
      deliveries flattened clients := by
  unfold deliveries
  rw [List.mem_filterMap]
  exact ⟨c, hc, by rw [if_neg hne]⟩

theorem deliveries_sublist (flattened : List Observation) (clients : List Client) :
    ((deliveries flattened clients).map Prod.fst).Sublist clients := by
  induction clients with
  | nil => simp [deliveries]
  | cons c rest ih =>
    by_cases h : flattened.filter (fun o => decide (o.device_id = c.ip)) = []
    · rw [deliveries_cons_of_eq flattened c rest h]
      exact List.Sublist.cons _ ih
    · rw [deliveries_cons_of_ne flattened c rest h]
      simpa using ih

theorem deliveries_ne_nil (flattened : List Observation) (clients : List Client)
    (cm : Client × List Observation) (h : cm ∈ deliveries flattened clients) : cm.2 ≠ [] := by
  unfold deliveries at h
  rw [List.mem_filterMap] at h
  obtain ⟨c, _, hc⟩ := h
  by_cases he : flattened.filter (fun o => decide (o.device_id = c.ip)) = []
  · rw [if_pos he] at hc; cases hc
  · rw [if_neg he] at hc
    cases hc
    exact he

/-! ## Ingestion handler -/

theorem updateObservations_payload (clock : Nat → Time) (clients : List Client)
    (st : ServerState) (p : Nested Observation) :
    updateObservations clock clients st (.payload p) =
      match fanOut (flattenObservations p) clients with
      | (sent, some e) =>
        ⟨{ st with
            lastRequestData := .payload p
            logData := addLogData (clock 0) st.logData (.payload p)
            latestObservation := st.latestObservation.set (flattenObservations p) },
          sent, .error e, none⟩
      | (sent, none) =>
        match recordAll clock 1 st.store (flattenObservations p) with
        | (store, some e) =>
          ⟨{ store := store
             lastRequestData := .payload p
             logData := addLogData (clock 0) st.logData (.payload p)
             lastUpdatedToCare := st.lastUpdatedToCare
             latestObservation := st.latestObservation.set (flattenObservations p) },
            sent, .error e, none⟩
        | (store, none) =>
          ⟨{ store := store
             lastRequestData := .payload p
             logData := addLogData (clock 0) st.logData (.payload p)
             lastUpdatedToCare :=
               gateNext (clock (1 + (flattenObservations p).length)) st.lastUpdatedToCare
             latestObservation := st.latestObservation.set (flattenObservations p) },
            sent, .ok (.payload p),
            if gateClosed (clock (1 + (flattenObservations p).length)) st.lastUpdatedToCare
            then none
            else some (clock (1 + (flattenObservations p).length), store.staticObservations)⟩ := by
  unfold updateObservations
  simp only [Body.falsy, Body.typeof, ne_eq, not_true_eq_false, if_false, Bool.false_eq_true]

/-- A body that passes both guards of `updateObservations` is a payload. -/
theorem Body.payload_of_object (body : Body) (hf : body.falsy = false)
    (ht : body.typeof = "object") : ∃ p, body = .payload p := by
  cases body with
  | payload p => exact ⟨p, rfl⟩
  | null => simp [Body.falsy] at hf
  | undefined => simp [Body.falsy] at hf
  | bool b => simp [Body.typeof] at ht
  | number q => simp [Body.typeof] at ht
  | string s => simp [Body.typeof] at ht

theorem updateObservations_of_falsy (clock : Nat → Time) (clients : List Client)
    (st : ServerState) (body : Body) (h : body.falsy = true) :
    updateObservations clock clients st body =
      ⟨{ st with lastRequestData := body, logData := addLogData (clock 0) st.logData body },
        [], .error (.badRequest "No observations provided"), none⟩ := by
  unfold updateObservations
  simp only [h, if_true]

theorem updateObservations_of_not_object (clock : Nat → Time) (clients : List Client)
    (st : ServerState) (body : Body) (hf : body.falsy = false) (h : body.typeof ≠ "object") :
    updateObservations clock clients st body =
      ⟨{ st with lastRequestData := body, logData := addLogData (clock 0) st.logData body },
        [], .error (.badRequest "Invalid observations provided"), none⟩ := by
  unfold updateObservations
  simp only [hf, Bool.false_eq_true, if_false, h, ne_eq, not_false_eq_true, if_true]

theorem updateObservations_sent (clock : Nat → Time) (clients : List Client)
    (st : ServerState) (p : Nested Observation) :
    (updateObservations clock clients st (.payload p)).sent =
      (fanOut (flattenObservations p) clients).1 := by
  rw [updateObservations_payload]
  rcases fanOut (flattenObservations p) clients with ⟨sent, e | e⟩
  · rcases recordAll clock 1 st.store (flattenObservations p) with ⟨store, e | e⟩ <;> rfl
  · rfl

/-- C9: the fan-out of `updateObservations` calls `send` at most once per
subscriber, in subscriber order, each time with exactly the observations of the
batch whose `device_id` equals the subscriber's `ip` tag, in batch order, and
never with an empty selection.  When no subscriber with matching observations
throws, the sends are exactly one to every subscriber with matching
observations and none to the others; when one throws, the subscribers before it
are served so, it is the last one tried, and the exception ends the loop.  These
calls are the sends of the handler. -/
theorem fanOut_spec (flattened : List Observation) (clients : List Client) :
    ((fanOut flattened clients).1.map Prod.fst).Sublist clients ∧
    (∀ cm ∈ (fanOut flattened clients).1,
      cm.2 = flattened.filter (fun o => decide (o.device_id = cm.1.ip)) ∧ cm.2 ≠ []) ∧
    (∀ cm ∈ (fanOut flattened clients).1, cm.2.Sublist flattened) ∧
    ((∀ c ∈ clients, c.sendThrows = true →
        flattened.filter (fun o => decide (o.device_id = c.ip)) = []) →
      fanOut flattened clients = (deliveries flattened clients, none)) ∧
    (∀ (pre : List Client) (c : Client) (post : List Client), clients = pre ++ c :: post →
      (∀ x ∈ pre, x.sendThrows = true →
        flattened.filter (fun o => decide (o.device_id = x.ip)) = []) →
      c.sendThrows = true → flattened.filter (fun o => decide (o.device_id = c.ip)) ≠ [] →
      fanOut flattened clients =
        (deliveries flattened pre ++
            [(c, flattened.filter (fun o => decide (o.device_id = c.ip)))],
          some (.thrown "send"))) ∧
    (∀ (l : List Client), ((deliveries flattened l).map Prod.fst).Sublist l ∧
      ∀ c ∈ l, ((c, flattened.filter (fun o => decide (o.device_id = c.ip))) ∈
          deliveries flattened l ↔
        flattened.filter (fun o => decide (o.device_id = c.ip)) ≠ [])) ∧
    (∀ (clock : Nat → Time) (st : ServerState) (p : Nested Observation),
      flattenObservations p = flattened →
      (updateObservations clock clients st (.payload p)).sent = (fanOut flattened clients).1) := by
  refine ⟨fanOut_sublist flattened clients, fanOut_content flattened clients, ?_,
    fanOut_of_no_throw flattened clients, ?_, ?_, ?_⟩
  · intro cm h
    rw [(fanOut_content flattened clients cm h).1]
    exact List.filter_sublist _
  · intro pre c post hcl hpre hc hne
    rw [hcl]
    exact fanOut_of_first_throw flattened pre c post hpre hc hne
  · intro l
    refine ⟨deliveries_sublist flattened l, ?_⟩
    intro c hc
    constructor
    · intro hmem
      exact deliveries_ne_nil flattened l _ hmem
    · intro hne
      exact mem_deliveries flattened l c hc hne
  · intro clock st p hp
    rw [← hp]
    exact updateObservations_sent clock clients st p

/-- Witness for C9, the scenario of the specification: with subscribers tagged
"dev-A" and "dev-B" and a batch of one observation of "dev-A", the "dev-A"
subscriber is sent that observation and the "dev-B" subscriber nothing. -/
theorem fanOut_spec_witness :
    fanOut [readingOf "dev-A"] [subscriberA, subscriberB] =
      ([(subscriberA, [readingOf "dev-A"])], none) :=
  ((fanOut_spec [readingOf "dev-A"] [subscriberA, subscriberB]).2.2.2.1 (by decide)).trans
    (by decide)

/-- C3 (amended): a body that is falsy or not of type object makes
`updateObservations` throw a `BadRequestException`; the windowed store, the
active devices, the latest-vitals index and the sync gate are as before, no
message is sent and no pass is started, while `lastRequestData` has become the
body and the body has been appended to the diagnostic log. -/
theorem updateObservations_bad_request (clock : Nat → Time) (clients : List Client)
    (st : ServerState) (body : Body)
    (h : body.falsy = true ∨ body.typeof ≠ "object") :
    (∃ message, (updateObservations clock clients st body).response =
        .error (.badRequest message)) ∧
    (updateObservations clock clients st body).state.store = st.store ∧
    (updateObservations clock clients st body).state.latestObservation = st.latestObservation ∧
    (updateObservations clock clients st body).state.lastUpdatedToCare = st.lastUpdatedToCare ∧
    (updateObservations clock clients st body).sent = [] ∧
    (updateObservations clock clients st body).pass = none ∧
    (updateObservations clock clients st body).state.lastRequestData = body ∧
    (updateObservations clock clients st body).state.logData =
      addLogData (clock 0) st.logData body := by
  by_cases hf : body.falsy = true
  · rw [updateObservations_of_falsy clock clients st body hf]
    exact ⟨⟨_, rfl⟩, rfl, rfl, rfl, rfl, rfl, rfl, rfl⟩
  · rw [updateObservations_of_not_object clock clients st body (by simpa using hf)
      (h.resolve_left hf)]
    exact ⟨⟨_, rfl⟩, rfl, rfl, rfl, rfl, rfl, rfl, rfl⟩

/-- Witness for C3 (amended): the body `"abc"`, a string, on the initial state. -/
theorem updateObservations_bad_request_witness :
    (∃ message, (updateObservations fixedClock [healthyClient] ServerState.init
        (.string "abc")).response = .error (.badRequest message)) ∧
    (updateObservations fixedClock [healthyClient] ServerState.init (.string "abc")).state.store =
      Store.empty ∧
    (updateObservations fixedClock [healthyClient] ServerState.init
      (.string "abc")).state.logData.length = 1 :=
  have h := updateObservations_bad_request fixedClock [healthyClient] ServerState.init
    (.string "abc") (Or.inr (by decide))
  ⟨h.1, h.2.1, by rw [h.2.2.2.2.2.2.2]; rfl⟩

/-- C3 (as stated) fails: a missing body is rejected, yet `lastRequestData` and
the diagnostic log are not what they were before the call. -/
theorem updateObservations_bad_request_mutates :
    (updateObservations fixedClock [] ServerState.init .undefined).response =
      .error (.badRequest "No observations provided") ∧
    (updateObservations fixedClock [] ServerState.init .undefined).state.logData.length = 1 ∧
    ServerState.init.logData.length = 0 ∧
    (updateObservations fixedClock [] ServerState.init .undefined).state.logData ≠
      ServerState.init.logData ∧
    (updateObservations fixedClock [] ServerState.init .undefined).state.lastRequestData ≠
      ServerState.init.lastRequestData := by
  refine ⟨rfl, rfl, rfl, ?_, ?_⟩
  · intro h
    have h2 := congrArg List.length h
    exact absurd h2 (by decide)
  · intro h
    cases h

theorem recordAll_eq_addAll (clock : Nat → Time) (batch : List Observation)
    (h : ∀ o ∈ batch, o.observation_id ∉ inheritedKeys) :
    ∀ (k : Nat) (s : Store), recordAll clock k s batch = (addAll s (stamp clock k batch), none) := by
  induction batch with
  | nil => intro k s; rfl
  | cons o rest ih =>
    intro k s
    have ho := addObservation_of_not_inherited (clock k) s o (h o (List.mem_cons_self _ _))
    rw [recordAll, stamp, addAll, ho]
    exact ih (fun x hx => h x (List.mem_cons_of_mem _ hx)) (k + 1) _

theorem stamp_keys (clock : Nat → Time) (batch : List Observation)
    (h : ∀ o ∈ batch, o.observation_id ∉ inheritedKeys) :
    ∀ k : Nat, ∀ a ∈ stamp clock k batch, a.2.observation_id ∉ inheritedKeys := by
  induction batch with
  | nil => intro k a ha; simp [stamp] at ha
  | cons o rest ih =>
    intro k a ha
    rw [stamp] at ha
    rcases List.mem_cons.mp ha with e | e
    · rw [e]; exact h o (List.mem_cons_self _ _)
    · exact ih (fun x hx => h x (List.mem_cons_of_mem _ hx)) (k + 1) a e

theorem matching_stamp (d : Option String) (key : String) (clock : Nat → Time)
    (batch : List Observation) :
    ∀ k : Nat, matching d key (stamp clock k batch) =
      batch.filter (fun o => decide (o.device_id = d ∧ o.observation_id = key)) := by
  induction batch with
  | nil => intro k; rfl
  | cons o rest ih =>
    intro k
    rw [stamp, matching_cons, ih (k + 1), List.filter_cons]
    by_cases h : d = o.device_id ∧ key = o.observation_id
    · have h2 : o.device_id = d ∧ o.observation_id = key := ⟨h.1.symm, h.2.symm⟩
      rw [if_pos h, if_pos (by simpa using h2)]
    · have h2 : ¬ (o.device_id = d ∧ o.observation_id = key) := fun e => h ⟨e.1.symm, e.2.symm⟩
      rw [if_neg h, if_neg (by simpa using h2)]

/-- The windows after a batch without inherited names has been recorded. -/
theorem winList_recordAll (clock : Nat → Time) (k : Nat) (s : Store) (batch : List Observation)
    (h : ∀ o ∈ batch, o.observation_id ∉ inheritedKeys)
    (hwf : s.WF) (hb : s.Bounded) (d : Option String) (key : String) :
    ((recordAll clock k s batch).1.window d key).getD [] =
      lastN 11 ((s.window d key).getD [] ++
        batch.filter (fun o => decide (o.device_id = d ∧ o.observation_id = key))) := by
  rw [recordAll_eq_addAll clock batch h,
    winList_addAll d key _ (Or.inr (stamp_keys clock batch h k)) s hwf (hb d key), matching_stamp]

/-- C7 (amended): on an observation payload none of whose `observation_id` is a
name inherited from `Object.prototype`, when no subscriber with matching
observations has a throwing `send`, every subscriber with matching observations
is sent them once, every observation of the batch is added to the windowed
store by `addObservation`, in batch order, and the request body is returned; on
a store that satisfies the invariants of reachable stores each window then
holds the last eleven readings of what it held followed by the batch.  When the
`send` of a subscriber with matching observations throws, that exception leaves
`updateObservations`: the subscribers before it have been served, none after it
is tried, the windowed store is as before the call, no sync pass is started and
no response is returned. -/
theorem updateObservations_delivery (clock : Nat → Time) (clients : List Client)
    (st : ServerState) (p : Nested Observation) :
    ((∀ c ∈ clients, c.sendThrows = true →
        (flattenObservations p).filter (fun o => decide (o.device_id = c.ip)) = []) →
      (∀ o ∈ flattenObservations p, o.observation_id ∉ inheritedKeys) →
      (updateObservations clock clients st (.payload p)).response = .ok (.payload p) ∧
      (updateObservations clock clients st (.payload p)).sent =
        deliveries (flattenObservations p) clients ∧
      (∀ c ∈ clients, (flattenObservations p).filter (fun o => decide (o.device_id = c.ip)) ≠ [] →
        (c, (flattenObservations p).filter (fun o => decide (o.device_id = c.ip))) ∈
          (updateObservations clock clients st (.payload p)).sent) ∧
      (updateObservations clock clients st (.payload p)).state.store =
        addAll st.store (stamp clock 1 (flattenObservations p)) ∧
      recordAll clock 1 st.store (flattenObservations p) =
        ((updateObservations clock clients st (.payload p)).state.store, none) ∧
      (st.store.WF → st.store.Bounded → ∀ (d : Option String) (key : String),
        (((updateObservations clock clients st (.payload p)).state.store.window d key).getD []) =
          lastN 11 ((st.store.window d key).getD [] ++
            (flattenObservations p).filter
              (fun o => decide (o.device_id = d ∧ o.observation_id = key))))) ∧
    (∀ (pre : List Client) (c : Client) (post : List Client), clients = pre ++ c :: post →
      (∀ x ∈ pre, x.sendThrows = true →
        (flattenObservations p).filter (fun o => decide (o.device_id = x.ip)) = []) →
      c.sendThrows = true →
      (flattenObservations p).filter (fun o => decide (o.device_id = c.ip)) ≠ [] →
      (updateObservations clock clients st (.payload p)).response = .error (.thrown "send") ∧
      (updateObservations clock clients st (.payload p)).sent =
        deliveries (flattenObservations p) pre ++
          [(c, (flattenObservations p).filter (fun o => decide (o.device_id = c.ip)))] ∧
      (updateObservations clock clients st (.payload p)).state.store = st.store ∧
      (updateObservations clock clients st (.payload p)).pass = none) := by
  constructor
  · intro h hkeys
    have hf := fanOut_of_no_throw (flattenObservations p) clients h
    have hr := recordAll_eq_addAll clock (flattenObservations p) hkeys 1 st.store
    have hu := updateObservations_payload clock clients st p
    rw [hf] at hu
    simp only [hr] at hu
    rw [hu]
    refine ⟨rfl, rfl, ?_, rfl, hr, ?_⟩
    · intro c hc hne
      exact mem_deliveries (flattenObservations p) clients c hc hne
    · intro hwf hb d key
      have hw := winList_recordAll clock 1 st.store (flattenObservations p) hkeys hwf hb d key
      rw [hr] at hw
      exact hw
  · intro pre c post hcl hpre hc hne
    have hf := fanOut_of_first_throw (flattenObservations p) pre c post hpre hc hne
    have hu := updateObservations_payload clock clients st p
    rw [hcl] at hu ⊢
    rw [hf] at hu
    simp only at hu
    rw [hu]
    exact ⟨rfl, rfl, rfl, rfl⟩

theorem empty_bounded : Store.empty.Bounded := by
  intro d k
  simp [window_empty]

/-- Witness for C7 (amended): one heart-rate reading of `m1` on the initial
state, first with a working subscriber alone, then with a broken one before it. -/
theorem updateObservations_delivery_witness :
    ((updateObservations fixedClock [healthyClient] ServerState.init
        (.payload (.leaf (hr 72)))).response = .ok (.payload (.leaf (hr 72))) ∧
      (updateObservations fixedClock [healthyClient] ServerState.init
        (.payload (.leaf (hr 72)))).sent = [(healthyClient, [hr 72])] ∧
      (updateObservations fixedClock [healthyClient] ServerState.init
        (.payload (.leaf (hr 72)))).state.store.window (some "m1") "heart-rate" =
          some [hr 72]) ∧
    ((updateObservations fixedClock [brokenClient, healthyClient] ServerState.init
        (.payload (.leaf (hr 72)))).response = .error (.thrown "send") ∧
      (updateObservations fixedClock [brokenClient, healthyClient] ServerState.init
        (.payload (.leaf (hr 72)))).sent = [(brokenClient, [hr 72])] ∧
      (updateObservations fixedClock [brokenClient, healthyClient] ServerState.init
        (.payload (.leaf (hr 72)))).state.store = Store.empty) :=
  have h1 := (updateObservations_delivery fixedClock [healthyClient] ServerState.init
    (.leaf (hr 72))).1 (by decide) (by decide)
  have h2 := (updateObservations_delivery fixedClock [brokenClient, healthyClient]
    ServerState.init (.leaf (hr 72))).2 [] brokenClient [healthyClient] rfl (by decide)
    (by decide) (by decide)
  ⟨⟨h1.1, h1.2.1.trans (by decide), by rw [h1.2.2.2.1]; decide⟩,
    ⟨h2.1, h2.2.1.trans (by decide), h2.2.2.1⟩⟩

/-- C7 (as stated) fails: with a subscriber whose `send` throws ahead of a
working subscriber of the same monitor, the call throws instead of returning the
body, the working subscriber is never sent anything, and the reading of the
batch is not in the windowed store. -/
theorem updateObservations_send_throw_aborts :
    (updateObservations fixedClock [brokenClient, healthyClient] ServerState.init
      (.payload (.leaf (hr 72)))).response = .error (.thrown "send") ∧
    (updateObservations fixedClock [brokenClient, healthyClient] ServerState.init
      (.payload (.leaf (hr 72)))).sent = [(brokenClient, [hr 72])] ∧
    (updateObservations fixedClock [brokenClient, healthyClient] ServerState.init
      (.payload (.leaf (hr 72)))).state.store.window (some "m1") "heart-rate" = none ∧
    (updateObservations fixedClock [brokenClient, healthyClient] ServerState.init
      (.payload (.leaf (hr 72)))).state.store = Store.empty := by
  refine ⟨rfl, by decide, by decide, by decide⟩

theorem addObservation_bounded (t : Time) (s : Store) (o : Observation) (hwf : s.WF)
    (hb : s.Bounded) : (addObservation t s o).1.Bounded := by
  intro d k
  rcases addObservation_eq t s o with h2 | ⟨e, h2, _⟩
  · rw [h2, window_addObservationOk t s o hwf.1 d k, jsSlice_neg_limit]
    split
    · simp only [Option.getD_some, List.length_append, length_lastN, List.length_singleton]
      omega
    · exact hb d k
  · rw [h2]; exact hb d k

/-- Every store reached from the empty one is bounded. -/
theorem addAll_bounded (adds : List (Time × Observation)) :
    ∀ s : Store, s.WF → s.Bounded → (addAll s adds).Bounded := by
  induction adds with
  | nil => intro s _ hb; exact hb
  | cons a rest ih =>
    intro s hwf hb
    obtain ⟨t, o⟩ := a
    exact ih _ (addObservation_wf t s o hwf) (addObservation_bounded t s o hwf hb)

/-- An observation of a known monitor whose `observation_id` is an inherited
name makes `addObservation` throw: the handler throws a `TypeError`, the
readings before it are stored, the ones after it are not, and no sync pass is
started. -/
theorem updateObservations_inherited_name_throws :
    (updateObservations fixedClock [] ServerState.init
      (.payload (.array [.leaf (hr 1), .leaf toStringReading, .leaf (hr 3)]))).response =
      .error (.typeError
        "item.observations[observation.observation_id]?.slice is not a function") ∧
    (updateObservations fixedClock [] ServerState.init
      (.payload (.array [.leaf (hr 1), .leaf toStringReading, .leaf (hr 3)]))).state.store.window
        (some "m1") "heart-rate" = some [hr 1] ∧
    (updateObservations fixedClock [] ServerState.init
      (.payload (.array [.leaf (hr 1), .leaf toStringReading, .leaf (hr 3)]))).pass = none := by
  refine ⟨rfl, by decide, by decide⟩

/-! ## Payload of the sync pass -/

/-- C5 (evaluation of the code where it departs from the claim): after two
rounds of readings the windows of `m1` hold the older reading first, and the
payload takes `spo2`, `resp` and `pulse` from index 0, the older reading, not
from the reading appended last. -/
theorem derivePayload_reads_oldest :
    (addAll Store.empty vitalsTwice).staticObservations = [vitalsBuffer] ∧
    (∀ iso : String,
      derivePayload vitalsBuffer (some iso) =
        .ok { taken_at := 1704067205000, rounds_type := "NORMAL",
              spo2 := .num 90, resp := .num 30, pulse := .num 120,
              bp := some (.undefined, .undefined),
              temperature := .null, temperature_measured_at := some iso }) ∧
    getValueFromData ([spo2 90, spo2 97].getLast?) = .num 97 ∧
    getValueFromData ([rr 30, rr 16].getLast?) = .num 16 ∧
    getValueFromData ([hr 120, hr 72].getLast?) = .num 72 := by
  refine ⟨by decide, ?_, by decide, by decide, by decide⟩
  intro iso
  rfl

/-- C6 (evaluation of the code where it departs from the claim): for a
temperature entry that is not final and has no limits, and likewise when there
is no temperature entry at all, the payload has `temperature = null` and yet a
`temperature_measured_at` that is not null: in the comparisons `null` counts as
0 and a missing limit as `NaN`, so neither comparison holds. -/
theorem derivePayload_measured_at_without_temperature :
    (addAll Store.empty [(1704067200000, probeOff)]).staticObservations = [probeOffBuffer] ∧
    (∀ iso : String,
      (derivePayload probeOffBuffer (some iso)).map
          (fun p => (p.temperature, p.temperature_measured_at)) = .ok (.null, some iso)) ∧
    (∀ iso : String,
      (derivePayload vitalsBuffer (some iso)).map
          (fun p => (p.temperature, p.temperature_measured_at)) = .ok (.null, some iso)) := by
  refine ⟨by decide, ?_, ?_⟩
  · intro iso; rfl
  · intro iso; rfl

/-! ## Failure isolation in the sync pass -/

theorem tryDevice_snd (now : Time) (x : DeviceBuffer × Responses) :
    (tryDevice now x).2 = none := by
  unfold tryDevice
  rcases deviceBody now x.1 x.2 with ⟨effects, e | e⟩ <;> rfl

theorem tryDevice_of_throw (now : Time) (x : DeviceBuffer × Responses) (e : JsError)
    (h : (deviceBody now x.1 x.2).2 = some e) :
    (tryDevice now x).1 = (deviceBody now x.1 x.2).1 ++ [.logError e] := by
  unfold tryDevice
  rcases hb : deviceBody now x.1 x.2 with ⟨effects, e2⟩
  rw [hb] at h
  simp only at h
  subst h
  rfl

theorem syncLoop_cons (now : Time) (x : DeviceBuffer × Responses)
    (rest : List (DeviceBuffer × Responses)) :
    syncLoop now (x :: rest) =
      ((tryDevice now x).1 ++ (syncLoop now rest).1, (syncLoop now rest).2) := by
  have h := tryDevice_snd now x
  rw [syncLoop]
  rcases ht : tryDevice now x with ⟨effects, e⟩
  rw [ht] at h
  simp only at h
  subst h
  rfl

theorem syncLoop_snd (now : Time) (xs : List (DeviceBuffer × Responses)) :
    (syncLoop now xs).2 = none := by
  induction xs with
  | nil => rfl
  | cons x rest ih => rw [syncLoop_cons]; exact ih

theorem syncLoop_append (now : Time) (xs ys : List (DeviceBuffer × Responses)) :
    (syncLoop now (xs ++ ys)).1 = (syncLoop now xs).1 ++ (syncLoop now ys).1 := by
  induction xs with
  | nil => simp [syncLoop]
  | cons x rest ih =>
    rw [List.cons_append, syncLoop_cons, syncLoop_cons]
    simp only [ih, List.append_assoc]

/-- The effects of the loop are those of its turns, device after device. -/
theorem syncLoop_eq_flatten (now : Time) (xs : List (DeviceBuffer × Responses)) :
    (syncLoop now xs).1 = (xs.map (fun y => (tryDevice now y).1)).flatten := by
  induction xs with
  | nil => rfl
  | cons x rest ih => rw [syncLoop_cons, List.map_cons, List.flatten_cons, ih]

theorem updateObservationsToCare_of_open (now : Time) (last : Option Time)
    (snapshot : List (DeviceBuffer × Responses)) (h : gateClosed now last = false) :
    updateObservationsToCare now last snapshot =
      (.setLastUpdatedToCare now :: (syncLoop now snapshot).1, none) := by
  unfold updateObservationsToCare
  rw [h, syncLoop_snd]
  rfl

/-- C8: in a sync pass (the gate is open) over a snapshot in which the `try`
block of a device throws (a rejected directory lookup, header generation or
sink submission, or any other exception), no exception leaves
`updateObservationsToCare`; its effects are the gate write, then the effects of
the devices before the failing one, then the calls made for the failing device
up to the throw and the logging of the exception, then the effects of the
devices after it.  These last are the effects of the turns of the later
devices, one after the other, and they are the same whatever the answers `r`
given for the failing device, failing or not. -/
theorem syncLoop_isolates_failure (now : Time) (lastUpdatedToCare : Option Time)
    (pre post : List (DeviceBuffer × Responses)) (x : DeviceBuffer × Responses) (e : JsError)
    (hopen : gateClosed now lastUpdatedToCare = false)
    (hfail : (deviceBody now x.1 x.2).2 = some e) :
    (updateObservationsToCare now lastUpdatedToCare (pre ++ x :: post)).2 = none ∧
    (updateObservationsToCare now lastUpdatedToCare (pre ++ x :: post)).1 =
      .setLastUpdatedToCare now ::
        ((syncLoop now pre).1 ++ ((deviceBody now x.1 x.2).1 ++ [.logError e]) ++
          (syncLoop now post).1) ∧
    (∀ r : Responses,
      (updateObservationsToCare now lastUpdatedToCare (pre ++ (x.1, r) :: post)).2 = none ∧
      (updateObservationsToCare now lastUpdatedToCare (pre ++ (x.1, r) :: post)).1 =
        .setLastUpdatedToCare now ::
          ((syncLoop now pre).1 ++ (tryDevice now (x.1, r)).1 ++ (syncLoop now post).1)) ∧
    (syncLoop now post).1 = (post.map (fun y => (tryDevice now y).1)).flatten ∧
    (∀ y ∈ post,
      (tryDevice now y).1 =
        match (deviceBody now y.1 y.2).2 with
        | none => (deviceBody now y.1 y.2).1
        | some e2 => (deviceBody now y.1 y.2).1 ++ [.logError e2]) ∧
    (syncLoop now (pre ++ x :: post)).2 = none := by
  refine ⟨?_, ?_, ?_, syncLoop_eq_flatten now post, ?_, syncLoop_snd now _⟩
  · rw [updateObservationsToCare_of_open now _ _ hopen]
  · rw [updateObservationsToCare_of_open now _ _ hopen, syncLoop_append, syncLoop_cons,
      tryDevice_of_throw now x e hfail]
    simp only [List.append_assoc]
  · intro r
    rw [updateObservationsToCare_of_open now _ _ hopen, syncLoop_append, syncLoop_cons]
    simp only [List.append_assoc, and_self]
  · intro y _
    unfold tryDevice
    rcases deviceBody now y.1 y.2 with ⟨effects, e2 | e2⟩ <;> rfl

/-- Witness for C8: of two monitors, the first has its asset lookup rejected;
the second is still looked up, its patient resolved and its own failure (the
unbound `generateHeaders`) logged. -/
theorem syncLoop_isolates_failure_witness :
    (updateObservationsToCare 1704067206000 none
        ([] ++ (vitalsBuffer, lookupFails) :: [(secondBuffer, allSucceed)])).2 = none ∧
    (updateObservationsToCare 1704067206000 none
        ([] ++ (vitalsBuffer, lookupFails) :: [(secondBuffer, allSucceed)])).1 =
      [.setLastUpdatedToCare 1704067206000,
        .getAsset (some "m1"), .logError (.thrown "connect ECONNREFUSED"),
        .getAsset (some "m2"), .getPatientId "a1",
        .logError (.referenceError "generateHeaders is not defined")] :=
  have h := syncLoop_isolates_failure 1704067206000 none [] [(secondBuffer, allSucceed)]
    (vitalsBuffer, lookupFails) (.thrown "connect ECONNREFUSED") (by decide) (by decide)
  ⟨h.1, h.2.1.trans (by decide)⟩

/-! ## The hourly gate -/

theorem deviceBody_all_not_gate_write (now : Time) (b : DeviceBuffer) (r : Responses) :
    (deviceBody now b r).1.all (fun e => !e.isGateWrite) = true := by
  unfold deviceBody
  repeat' split
  all_goals rfl

theorem deviceBody_no_gate_write (now : Time) (b : DeviceBuffer) (r : Responses) :
    ∀ e ∈ (deviceBody now b r).1, e.isGateWrite = false := by
  intro e he
  have h := List.all_eq_true.mp (deviceBody_all_not_gate_write now b r) e he
  simpa using h

theorem tryDevice_no_gate_write (now : Time) (x : DeviceBuffer × Responses) :
    ∀ e ∈ (tryDevice now x).1, e.isGateWrite = false := by
  intro e he
  have hb := deviceBody_no_gate_write now x.1 x.2
  unfold tryDevice at he
  rcases hd : deviceBody now x.1 x.2 with ⟨effects, err | err⟩
  · rw [hd] at he hb
    exact hb e he
  · rw [hd] at he hb
    rcases List.mem_append.mp he with h | h
    · exact hb e h
    · rw [List.mem_singleton.mp h]; rfl

theorem syncLoop_no_gate_write (now : Time) (xs : List (DeviceBuffer × Responses)) :
    ∀ e ∈ (syncLoop now xs).1, e.isGateWrite = false := by
  induction xs with
  | nil => intro e he; simp [syncLoop] at he
  | cons x rest ih =>
    intro e he
    rw [syncLoop_cons] at he
    rcases List.mem_append.mp he with h | h
    · exact tryDevice_no_gate_write now x e h
    · exact ih e h

theorem lastUpdatedAfter_of_no_gate_write (last : Option Time) (effects : List Effect)
    (h : ∀ e ∈ effects, e.isGateWrite = false) : lastUpdatedAfter last effects = last := by
  induction effects with
  | nil => rfl
  | cons e rest ih =>
    have he := h e (List.mem_cons_self _ _)
    have hr := ih (fun e he => h e (List.mem_cons_of_mem _ he))
    cases e <;> simp_all [lastUpdatedAfter, Effect.isGateWrite]

/-- The effects of a call leave `lastUpdatedToCare` as the gate sets it. -/
theorem lastUpdatedAfter_updateObservationsToCare (now : Time) (last : Option Time)
    (snapshot : List (DeviceBuffer × Responses)) :
    lastUpdatedAfter last (updateObservationsToCare now last snapshot).1 = gateNext now last := by
  unfold updateObservationsToCare gateNext
  by_cases h : gateClosed now last = true
  · rw [if_pos h, if_pos h]; rfl
  · rw [if_neg h, if_neg h]
    show lastUpdatedAfter (some now) (syncLoop now snapshot).1 = some now
    exact lastUpdatedAfter_of_no_gate_write _ _ (syncLoop_no_gate_write now snapshot)

theorem effects_ne_nil_iff (now : Time) (last : Option Time)
    (snapshot : List (DeviceBuffer × Responses)) :
    (updateObservationsToCare now last snapshot).1 ≠ [] ↔ HOUR ≤ now - last.getD 0 := by
  unfold updateObservationsToCare gateClosed
  by_cases h : now - last.getD 0 < HOUR
  · simp only [h, decide_True, if_true, ne_eq, not_true_eq_false, false_iff, not_le]
  · simp only [h, decide_False, Bool.false_eq_true, if_false, ne_eq, reduceCtorEq,
      not_false_eq_true, true_iff]
    exact not_lt.mp h

theorem effects_shape (now : Time) (last : Option Time)
    (snapshot : List (DeviceBuffer × Responses)) :
    (updateObservationsToCare now last snapshot).1 = [] ∨
    (updateObservationsToCare now last snapshot).1 =
      .setLastUpdatedToCare now :: (syncLoop now snapshot).1 := by
  unfold updateObservationsToCare
  by_cases h : gateClosed now last = true
  · left; rw [if_pos h]
  · right; rw [if_neg h]

theorem runSync_cons (last : Option Time) (now : Time) (snap : List (DeviceBuffer × Responses))
    (rest : List (Time × List (DeviceBuffer × Responses))) :
    runSync last ((now, snap) :: rest) =
      (updateObservationsToCare now last snap).1 :: runSync (gateNext now last) rest := by
  rw [runSync, lastUpdatedAfter_updateObservationsToCare]

theorem runSync_gate (inv : List (Time × List (DeviceBuffer × Responses))) :
    ∀ last : Option Time,
      (inv.map Prod.fst).Pairwise (fun a b => a ≤ b) →
      (∀ t ∈ inv.map Prod.fst, last.getD 0 ≤ t) →
      ∀ (i : Nat) (now : Time) (snap : List (DeviceBuffer × Responses)) (eff : List Effect),
        inv[i]? = some (now, snap) → (runSync last inv)[i]? = some eff →
        (eff = [] ∨ eff = .setLastUpdatedToCare now :: (syncLoop now snap).1) ∧
        (eff ≠ [] ↔ HOUR ≤ now - last.getD 0 ∧
          ∀ (j : Nat) (nowj : Time) (snapj : List (DeviceBuffer × Responses))
            (effj : List Effect), j < i → inv[j]? = some (nowj, snapj) →
            (runSync last inv)[j]? = some effj → effj ≠ [] → HOUR ≤ now - nowj) := by
  induction inv with
  | nil => intro last _ _ i now snap eff hi; simp at hi
  | cons a rest ih =>
    intro last hs hb i now snap eff hi he
    obtain ⟨n0, s0⟩ := a
    rw [runSync_cons] at he ⊢
    have hs2 : (rest.map Prod.fst).Pairwise (fun a b => a ≤ b) := by
      simp only [List.map_cons, List.pairwise_cons] at hs
      exact hs.2
    have hle : ∀ t ∈ rest.map Prod.fst, n0 ≤ t := by
      simp only [List.map_cons, List.pairwise_cons] at hs
      exact hs.1
    have hb0 : (last.getD 0 : Int) ≤ n0 := hb n0 (by simp)
    cases i with
    | zero =>
      simp only [List.getElem?_cons_zero, Option.some.injEq, Prod.mk.injEq] at hi he
      obtain ⟨rfl, rfl⟩ := hi
      subst he
      refine ⟨effects_shape _ _ _, ?_⟩
      rw [effects_ne_nil_iff]
      constructor
      · intro h
        exact ⟨h, fun j _ _ _ hj => absurd hj (Nat.not_lt_zero j)⟩
      · intro h; exact h.1
    | succ i =>
      rw [List.getElem?_cons_succ] at hi he
      have hnow : (n0 : Int) ≤ now := hle now (List.mem_map.mpr ⟨(now, snap), List.getElem?_mem hi, rfl⟩)
      by_cases hg : gateClosed n0 last = true
      · have hnext : gateNext n0 last = last := by rw [gateNext, if_pos hg]
        have h0 : (updateObservationsToCare n0 last s0).1 = [] := by
          rw [updateObservationsToCare, if_pos hg]
        rw [hnext] at he ⊢
        have IH := ih last hs2 (fun t ht => hb t (by
          simp only [List.map_cons, List.mem_cons]; exact Or.inr ht)) i now snap eff hi he
        refine ⟨IH.1, ?_⟩
        rw [IH.2]
        constructor
        · rintro ⟨h1, h2⟩
          refine ⟨h1, ?_⟩
          intro j nowj snapj effj hj hij hej hne
          cases j with
          | zero =>
            simp only [List.getElem?_cons_zero, Option.some.injEq] at hej
            rw [h0] at hej
            exact absurd hej.symm hne
          | succ j =>
            rw [List.getElem?_cons_succ] at hij hej
            exact h2 j nowj snapj effj (Nat.lt_of_succ_lt_succ hj) hij hej hne
        · rintro ⟨h1, h2⟩
          refine ⟨h1, ?_⟩
          intro j nowj snapj effj hj hij hej hne
          exact h2 (j + 1) nowj snapj effj (Nat.succ_lt_succ hj)
            (by rw [List.getElem?_cons_succ]; exact hij)
            (by rw [List.getElem?_cons_succ]; exact hej) hne
      · have hnext : gateNext n0 last = some n0 := by rw [gateNext, if_neg hg]
        have h0 : (updateObservationsToCare n0 last s0).1 ≠ [] := by
          rw [updateObservationsToCare, if_neg hg]
          exact List.cons_ne_nil _ _
        rw [hnext] at he ⊢
        have IH := ih (some n0) hs2 (fun t ht => hle t ht) i now snap eff hi he
        refine ⟨IH.1, ?_⟩
        rw [IH.2]
        simp only [Option.getD_some]
        constructor
        · rintro ⟨h1, h2⟩
          refine ⟨le_trans h1 (sub_le_sub_left hb0 now), ?_⟩
          intro j nowj snapj effj hj hij hej hne
          cases j with
          | zero =>
            simp only [List.getElem?_cons_zero, Option.some.injEq, Prod.mk.injEq] at hij
            rw [← hij.1]
            exact h1
          | succ j =>
            rw [List.getElem?_cons_succ] at hij hej
            exact h2 j nowj snapj effj (Nat.lt_of_succ_lt_succ hj) hij hej hne
        · rintro ⟨_, h2⟩
          refine ⟨?_, ?_⟩
          · exact h2 0 n0 s0 _ (Nat.succ_pos i) (by simp) (by simp) h0
          · intro j nowj snapj effj hj hij hej hne
            exact h2 (j + 1) nowj snapj effj (Nat.succ_lt_succ hj)
              (by rw [List.getElem?_cons_succ]; exact hij)
              (by rw [List.getElem?_cons_succ]; exact hej) hne

theorem runSync_length (inv : List (Time × List (DeviceBuffer × Responses))) :
    ∀ last : Option Time, (runSync last inv).length = inv.length := by
  induction inv with
  | nil => intro last; rfl
  | cons a rest ih =>
    intro last
    obtain ⟨n0, s0⟩ := a
    rw [runSync_cons, List.length_cons, List.length_cons, ih]

/-- C4: for invocations of `updateObservationsToCare` at non-decreasing times,
starting with `lastUpdatedToCare = null`, the clock reading at least one hour
(3 600 000 ms) past the Unix epoch as every running clock is (in the gate `null`
counts as 0, the epoch itself): an invocation either does nothing at all, or
it performs a pass, which is to assign its own time to `lastUpdatedToCare`
first and then run the loop over the store snapshot, device after device,
which makes the external calls and never assigns the gate again.  It performs a
pass exactly when no earlier pass started less than one hour before it; the
first invocation always does. -/
theorem sync_gate (inv : List (Time × List (DeviceBuffer × Responses)))
    (hsorted : (inv.map Prod.fst).Pairwise (fun a b => a ≤ b))
    (hepoch : ∀ t ∈ inv.map Prod.fst, HOUR ≤ t) :
    (runSync none inv).length = inv.length ∧
    (∀ (i : Nat) (now : Time) (snap : List (DeviceBuffer × Responses)) (eff : List Effect),
      inv[i]? = some (now, snap) → (runSync none inv)[i]? = some eff →
      (eff = [] ∨ eff = .setLastUpdatedToCare now :: (syncLoop now snap).1) ∧
      (syncLoop now snap).1 = (snap.map (fun y => (tryDevice now y).1)).flatten ∧
      (∀ e ∈ (syncLoop now snap).1, e.isGateWrite = false) ∧
      (eff = .setLastUpdatedToCare now :: (syncLoop now snap).1 ↔
        ∀ (j : Nat) (nowj : Time) (snapj : List (DeviceBuffer × Responses))
          (effj : List Effect), j < i → inv[j]? = some (nowj, snapj) →
          (runSync none inv)[j]? = some effj → effj ≠ [] → HOUR ≤ now - nowj)) ∧
    (∀ (now : Time) (snap : List (DeviceBuffer × Responses))
      (rest : List (Time × List (DeviceBuffer × Responses))), inv = (now, snap) :: rest →
      (runSync none inv)[0]? = some (.setLastUpdatedToCare now :: (syncLoop now snap).1)) := by
  have hb : ∀ t ∈ inv.map Prod.fst, (none : Option Time).getD 0 ≤ t := by
    intro t ht
    have h1 : (HOUR : Int) ≤ t := hepoch t ht
    have h2 : (0 : Int) ≤ HOUR := by decide
    exact le_trans h2 h1
  refine ⟨runSync_length inv none, ?_, ?_⟩
  · intro i now snap eff hi he
    have h := runSync_gate inv none hsorted hb i now snap eff hi he
    have hnow : HOUR ≤ now :=
      hepoch now (List.mem_map.mpr ⟨(now, snap), List.getElem?_mem hi, rfl⟩)
    have hiff : eff ≠ [] ↔ eff = .setLastUpdatedToCare now :: (syncLoop now snap).1 := by
      constructor
      · intro hne
        exact h.1.resolve_left hne
      · intro heq
        rw [heq]
        exact List.cons_ne_nil _ _
    refine ⟨h.1, syncLoop_eq_flatten now snap, syncLoop_no_gate_write now snap, ?_⟩
    rw [← hiff, h.2]
    simp only [Option.getD_none, sub_zero]
    exact ⟨fun h => h.2, fun h => ⟨hnow, h⟩⟩
  · intro now snap rest hinv
    subst hinv
    have hnow : HOUR ≤ now := hepoch now (by simp)
    have hopen : gateClosed now none = false := by
      unfold gateClosed
      simp only [Option.getD_none, sub_zero, decide_eq_false_iff_not, not_lt]
      exact hnow
    rw [runSync_cons, List.getElem?_cons_zero, updateObservationsToCare_of_open now none snap hopen]

/-- Witness for C4: of three invocations, at 00:00:06, 00:00:07 and 01:00:06,
the first and the third perform a pass over the store (gate write, directory
lookups, and the logging of the failure of the unbound `generateHeaders`) and
the second does nothing. -/
theorem sync_gate_witness :
    runSync none threeCalls =
      [[.setLastUpdatedToCare 1704067206000, .getAsset (some "m1"), .getPatientId "a1",
          .logError (.referenceError "generateHeaders is not defined")],
        [],
        [.setLastUpdatedToCare 1704070806000, .getAsset (some "m1"), .getPatientId "a1",
          .logError (.referenceError "generateHeaders is not defined")]] ∧
    (runSync none threeCalls).length = threeCalls.length ∧
    (runSync none threeCalls)[0]? =
      some (.setLastUpdatedToCare 1704067206000 ::
        (syncLoop 1704067206000 [(vitalsBuffer, allSucceed)]).1) :=
  have h := sync_gate threeCalls (by decide) (by decide)
  ⟨by decide, h.1, h.2.2 1704067206000 [(vitalsBuffer, allSucceed)] _ rfl⟩

/-- The gate at a clock reading within the first hour after the Unix epoch, the
range `sync_gate` leaves out: from `lastUpdatedToCare = null` the difference
`now - null` is `now` itself, less than an hour, and the invocation returns at
the gate. -/
theorem gate_shut_near_epoch :
    updateObservationsToCare 1000 none [(vitalsBuffer, allSucceed)] = ([], none) ∧
    gateNext 1000 none = none := by
  refine ⟨by decide, by decide⟩

/-! ## The windowed store -/

/-- C1 (evaluation of the code where it departs from the claim): after eleven
heart-rate readings of one monitor the stored window holds all eleven, oldest
first, not ten: the slice to the last ten is taken before the new reading is
appended. -/
theorem window_holds_eleven :
    (matching (some "m1") "heart-rate" elevenReadings).length = 11 ∧
    (addAll Store.empty elevenReadings).window (some "m1") "heart-rate" =
      some (elevenReadings.map Prod.snd) ∧
    ((addAll Store.empty elevenReadings).window (some "m1") "heart-rate").map List.length =
      some 11 := by
  refine ⟨by decide, by decide, by decide⟩

/-- C10: in every state reached from the empty store by calls of
`addObservation`, there is one buffer per entry of `activeDevices`, in the same
order, and no device identifier occurs twice; a further call, whether it
returns or throws, leaves the buffers of all other devices as they are; and
every stored window is non-empty and holds only readings that were added, each
under its own `device_id` and `observation_id`. -/
theorem store_invariants (adds : List (Time × Observation)) :
    (addAll Store.empty adds).staticObservations.map (fun b => b.device_id) =
      (addAll Store.empty adds).activeDevices ∧
    (addAll Store.empty adds).activeDevices.Nodup ∧
    ((addAll Store.empty adds).staticObservations.map (fun b => b.device_id)).Nodup ∧
    (∀ (t : Time) (o : Observation),
      (addObservation t (addAll Store.empty adds) o).1.staticObservations.filter
          (fun b => decide (b.device_id ≠ o.device_id)) =
        (addAll Store.empty adds).staticObservations.filter
          (fun b => decide (b.device_id ≠ o.device_id))) ∧
    (∀ b ∈ (addAll Store.empty adds).staticObservations, ∀ kw ∈ b.observations,
      kw.2 ≠ [] ∧
      ∀ x ∈ kw.2, x.device_id = b.device_id ∧ x.observation_id = kw.1 ∧
        x ∈ adds.map Prod.snd) := by
  have hwf := addAll_wf adds Store.empty empty_wf
  refine ⟨hwf.1, hwf.2, ?_, ?_, ?_⟩
  · rw [hwf.1]; exact hwf.2
  · intro t o
    exact addObservation_others t _ o
  · exact addAll_good (fun x => x ∈ adds.map Prod.snd) adds Store.empty (empty_good _)
      (fun a ha => List.mem_map.mpr ⟨a, ha, rfl⟩)
end TeleICU
